import Mathlib

/-!
# provider-zpa: the ApplicationSegment and SegmentGroup controllers

A shallow embedding of `pkg/controller/applicationsegment/controller.go`
(Go package `application`) and `pkg/controller/segmentgroup/controller.go`
(Go package `segment`).

* A Go `error` is `Option Error` (`none` is `nil`).
* A Go `*bool` / `*string` is `Option Bool` / `Option String`.
* The managed resource is passed by pointer in Go; here every operation
  returns the resource as it is after the call, together with the list of
  calls it issued on the remote client.
* The remote client is a record of functions from request to response.
-/

/-! ## Errors (`github.com/pkg/errors`, `crossplane-runtime/pkg/resource`) -/

/-- Go error values: created locally, wrapped, or returned by the remote API. -/
inductive Error where
  | New (msg : String)
  | Wrap (cause : Error) (msg : String)
  | API (status : Nat) (body : String)
deriving DecidableEq, Repr

/-- Embeds `errors.New(msg)`: always a non-nil error. -/
def errors.New (msg : String) : Option Error := some (Error.New msg)

/-- Embeds `errors.Wrap(err, msg)`: nil when `err` is nil, otherwise `err` wrapped under `msg`. -/
def errors.Wrap (err : Option Error) (msg : String) : Option Error :=
  match err with
  | none => none
  | some e => some (Error.Wrap e msg)

/-- Embeds `resource.Ignore(is, err)`: nil when `is(err)` holds, otherwise `err`. -/
def resource.Ignore (is : Error → Bool) (err : Option Error) : Option Error :=
  match err with
  | none => none
  | some e => if is e then none else some e

/-! ## Helpers of `pkg/client` (package `zpaclient`) -/

/-- Modelled from the spec: `zpaclient.StringToPtr` (pkg/client is not among the
sources). "empty/nil means unset" normalization to a pointer: the empty string
becomes nil, any other string a pointer to it. -/
def zpaclient.StringToPtr (s : String) : Option String :=
  if s = "" then none else some s

/-- Modelled from the spec: `zpaclient.StringValue` (pkg/client is not among the
sources). Converts an optional field to the scalar the API requires; an absent
string is the empty string. -/
def zpaclient.StringValue (v : Option String) : String :=
  match v with
  | some s => s
  | none => ""

/-- Modelled from the spec: `zpaclient.BoolValue` (pkg/client is not among the
sources). Converts an optional field to the scalar the API requires:
"absent-boolean defaults to false". -/
def zpaclient.BoolValue (v : Option Bool) : Bool :=
  match v with
  | some b => b
  | none => false

/-- Modelled from the spec: `zpaclient.IsEqualString` (pkg/client is not among the
sources). "equality of normalized-to-pointer values": two nil pointers are equal,
a nil and a non-nil pointer are not, two non-nil pointers are equal when the
strings they point to are. -/
def zpaclient.IsEqualString (s1 s2 : Option String) : Bool :=
  match s1, s2 with
  | none, none => true
  | some a, some b => decide (a = b)
  | _, _ => false

/-- Modelled from the spec: `zpaclient.IsEqualBool` (pkg/client is not among the
sources). "direct equality, with explicit empty/nil means unset normalization so
that an unset desired field never forces a mismatch against a server-returned
empty value": a nil pointer is compared as the empty value `false`. -/
def zpaclient.IsEqualBool (b1 b2 : Option Bool) : Bool :=
  decide (zpaclient.BoolValue b1 = zpaclient.BoolValue b2)

/-- Modelled from the spec: `zpaclient.IsEqualStringArrayContent` (pkg/client is
not among the sources). "order-independent content equality (set comparison, not
sequence comparison)": every element of each list occurs in the other. -/
def zpaclient.IsEqualStringArrayContent (s1 s2 : List String) : Bool :=
  s1.all (fun x => s2.contains x) && s2.all (fun x => s1.contains x)

/-- Modelled from the spec: `zpaclient.String` (pkg/client is not among the
sources). A pointer to the given string. -/
def zpaclient.String (v : String) : Option String := some v

/-- Modelled from the spec: `zpaclient.Bool` (pkg/client is not among the
sources). A pointer to the given boolean ("pointer to true"). -/
def zpaclient.Bool (v : Bool) : Option Bool := some v

/-! ## Framework types (`crossplane-runtime`) -/

/-- Embeds `managed.ExternalObservation`, the fields the controllers set. -/
structure ExternalObservation where
  ResourceExists : Bool
  ResourceUpToDate : Bool
  ResourceLateInitialized : Bool
deriving DecidableEq, Repr

/-- Embeds `managed.ExternalCreation`, the field the controllers set. -/
structure ExternalCreation where
  ExternalNameAssigned : Bool
deriving DecidableEq, Repr

/-- Embeds `managed.ExternalUpdate{}`: carries nothing the controllers set. -/
structure ExternalUpdate where
deriving DecidableEq, Repr

/-- A status condition, identified by its type (`Typ`, Go field `Type`), status
and reason. -/
structure Condition where
  Typ : String
  Status : String
  Reason : String
deriving DecidableEq, Repr

/-- Embeds `v1.Available()`. -/
def v1.Available : Condition :=
  { Typ := "Ready", Status := "True", Reason := "Available" }

/-- Embeds `ConditionedStatus.SetConditions(c)` for one condition: a condition of the
same type is replaced, otherwise the condition is appended. -/
def SetConditions (cs : List Condition) (c : Condition) : List Condition :=
  if cs.any (fun x => decide (x.Typ = c.Typ)) then
    cs.map (fun x => if x.Typ = c.Typ then c else x)
  else cs ++ [c]

/-! ## API models (`zpa-go-client/pkg/models`), the fields the controllers use -/

/-- Embeds `models.ApplicationResource`: the request payload of create and update and the
payload of the read response. -/
structure models.ApplicationResource where
  BypassType : String
  ConfigSpace : String
  CreationTime : String
  DefaultIdleTimeout : String
  DefaultMaxAge : String
  Description : String
  DomainNames : List String
  DoubleEncrypt : Bool
  Enabled : Bool
  HealthCheckType : String
  HealthReporting : String
  ID : String
  IcmpAccessType : String
  IPAnchored : Bool
  IsCnameEnabled : Bool
  ModifiedBy : String
  ModifiedTime : String
  Name : String
  PassiveHealthEnabled : Bool
  SegmentGroupID : String
  TCPPortRanges : List String
  UDPPortRanges : List String
deriving DecidableEq, Repr

/-- Embeds `models.SegmentGroup`: the request payload of create and update and the
payload of the read response. `Name` is a `*string`. -/
structure models.SegmentGroup where
  ConfigSpace : String
  CreationTime : String
  Description : String
  Enabled : Bool
  ID : String
  ModifiedBy : String
  ModifiedTime : String
  Name : Option String
  PolicyMigrated : Bool
  TCPKeepAliveEnabled : String
deriving DecidableEq, Repr

/-! ## Custom resources (`apis/.../v1alpha1`), the fields the controllers use -/

/-- Embeds `v1alpha1.ApplicationSegmentParameters`: the desired spec of an application
segment. Optional booleans and `SegmentGroupID` are pointers. -/
structure v1alpha1.ApplicationSegmentParameters where
  CustomerID : String
  BypassType : String
  ConfigSpace : String
  DefaultIdleTimeout : String
  DefaultMaxAge : String
  Description : String
  DomainNames : List String
  DoubleEncrypt : Option Bool
  Enabled : Option Bool
  HealthCheckType : String
  HealthReporting : String
  IcmpAccessType : String
  IPAnchored : Option Bool
  IsCnameEnabled : Option Bool
  PassiveHealthEnabled : Option Bool
  SegmentGroupID : Option String
  TCPPortRanges : List String
  UDPPortRanges : List String
deriving DecidableEq, Repr

/-- Embeds `v1alpha1.Observation` of an application segment. -/
structure v1alpha1.ApplicationSegmentObservation where
  CreationTime : String
  ID : String
  ModifiedBy : String
  ModifiedTime : String
deriving DecidableEq, Repr

/-- The `Spec` of an application segment. -/
structure v1alpha1.ApplicationSegmentSpec where
  ForProvider : v1alpha1.ApplicationSegmentParameters
deriving DecidableEq, Repr

/-- The `Status` of an application segment. -/
structure v1alpha1.ApplicationSegmentStatus where
  AtProvider : v1alpha1.ApplicationSegmentObservation
  Conditions : List Condition
deriving DecidableEq, Repr

/-- Embeds `v1alpha1.ApplicationSegment`. `ExternalName` is the value of the
external-name annotation, the empty string when the annotation is absent. -/
structure v1alpha1.ApplicationSegment where
  Name : String
  ExternalName : String
  Spec : v1alpha1.ApplicationSegmentSpec
  Status : v1alpha1.ApplicationSegmentStatus
deriving DecidableEq, Repr

/-- Embeds `v1alpha1.SegmentGroupParameters`: the desired spec of a segment group. -/
structure v1alpha1.SegmentGroupParameters where
  CustomerID : String
  ConfigSpace : String
  Description : String
  Enabled : Option Bool
  TCPKeepAliveEnabled : String
deriving DecidableEq, Repr

/-- Embeds `v1alpha1.Observation` of a segment group. -/
structure v1alpha1.SegmentGroupObservation where
  CreationTime : String
  ID : String
  ModifiedBy : String
  ModifiedTime : String
  PolicyMigrated : Bool
deriving DecidableEq, Repr

/-- The `Spec` of a segment group. -/
structure v1alpha1.SegmentGroupSpec where
  ForProvider : v1alpha1.SegmentGroupParameters
deriving DecidableEq, Repr

/-- The `Status` of a segment group. -/
structure v1alpha1.SegmentGroupStatus where
  AtProvider : v1alpha1.SegmentGroupObservation
  Conditions : List Condition
deriving DecidableEq, Repr

/-- Embeds `v1alpha1.SegmentGroup`. `ExternalName` is the value of the external-name
annotation, the empty string when the annotation is absent. -/
structure v1alpha1.SegmentGroup where
  Name : String
  ExternalName : String
  Spec : v1alpha1.SegmentGroupSpec
  Status : v1alpha1.SegmentGroupStatus
deriving DecidableEq, Repr

/-- Embeds `resource.Managed`: a managed resource of one of the two kinds, or of any
other kind. -/
inductive resource.Managed where
  | ApplicationSegment (cr : v1alpha1.ApplicationSegment)
  | SegmentGroup (cr : v1alpha1.SegmentGroup)
  | Other (kind : String)
deriving DecidableEq, Repr

/-! ## The remote client (`zpa-go-client/pkg/client`) -/

/-- Parameters of the application read request. -/
structure application_controller.GetApplicationUsingGET1Params where
  ApplicationID : String
  CustomerID : String
deriving DecidableEq, Repr

/-- The successful application read response. -/
structure application_controller.GetApplicationUsingGET1OK where
  Payload : models.ApplicationResource
deriving DecidableEq, Repr

/-- Parameters of the application create request. -/
structure application_controller.AddApplicationUsingPOST1Params where
  CustomerID : String
  Application : models.ApplicationResource
deriving DecidableEq, Repr

/-- The successful application create response. -/
structure application_controller.AddApplicationUsingPOST1Created where
  Payload : models.ApplicationResource
deriving DecidableEq, Repr

/-- Parameters of the application update request. -/
structure application_controller.UpdateApplicationV2UsingPUT1Params where
  CustomerID : String
  ApplicationID : String
  Application : models.ApplicationResource
deriving DecidableEq, Repr

/-- Parameters of the application delete request. -/
structure application_controller.DeleteApplicationUsingDELETE1Params where
  ApplicationID : String
  CustomerID : String
  ForceDelete : Option Bool
deriving DecidableEq, Repr

/-- Parameters of the segment group read request. -/
structure segment_group_controller.GetSegmentGroupUsingGET1Params where
  SegmentGroupID : String
  CustomerID : String
deriving DecidableEq, Repr

/-- The successful segment group read response. -/
structure segment_group_controller.GetSegmentGroupUsingGET1OK where
  Payload : models.SegmentGroup
deriving DecidableEq, Repr

/-- Parameters of the segment group create request. -/
structure segment_group_controller.AddSegmentGroupUsingPOST1Params where
  CustomerID : String
  SegmentGroup : models.SegmentGroup
deriving DecidableEq, Repr

/-- The successful segment group create response. -/
structure segment_group_controller.AddSegmentGroupUsingPOST1Created where
  Payload : models.SegmentGroup
deriving DecidableEq, Repr

/-- Parameters of the segment group update request. -/
structure segment_group_controller.UpdateSegmentGroupUsingPUT1Params where
  CustomerID : String
  SegmentGroupID : String
  SegmentGroup : models.SegmentGroup
deriving DecidableEq, Repr

/-- Parameters of the segment group delete request. -/
structure segment_group_controller.DeleteSegmentGroupUsingDELETE1Params where
  SegmentGroupID : String
  CustomerID : String
deriving DecidableEq, Repr

/-- The application endpoints of the remote API: each answers a request with a
response or an error. -/
structure application_controller.Client where
  GetApplicationUsingGET1 : application_controller.GetApplicationUsingGET1Params →
    Except Error application_controller.GetApplicationUsingGET1OK
  AddApplicationUsingPOST1 : application_controller.AddApplicationUsingPOST1Params →
    Except Error application_controller.AddApplicationUsingPOST1Created
  UpdateApplicationV2UsingPUT1 : application_controller.UpdateApplicationV2UsingPUT1Params →
    Option Error
  DeleteApplicationUsingDELETE1 : application_controller.DeleteApplicationUsingDELETE1Params →
    Option Error

/-- The segment group endpoints of the remote API. -/
structure segment_group_controller.Client where
  GetSegmentGroupUsingGET1 : segment_group_controller.GetSegmentGroupUsingGET1Params →
    Except Error segment_group_controller.GetSegmentGroupUsingGET1OK
  AddSegmentGroupUsingPOST1 : segment_group_controller.AddSegmentGroupUsingPOST1Params →
    Except Error segment_group_controller.AddSegmentGroupUsingPOST1Created
  UpdateSegmentGroupUsingPUT1 : segment_group_controller.UpdateSegmentGroupUsingPUT1Params →
    Option Error
  DeleteSegmentGroupUsingDELETE1 : segment_group_controller.DeleteSegmentGroupUsingDELETE1Params →
    Option Error

/-- Embeds `zpa.ZscalerPrivateAccessAPIPortal`: the remote client. -/
structure zpa.ZscalerPrivateAccessAPIPortal where
  ApplicationController : application_controller.Client
  SegmentGroupController : segment_group_controller.Client

/-- A call issued on the remote client, with its request. -/
inductive RemoteCall where
  | GetApplicationUsingGET1 (req : application_controller.GetApplicationUsingGET1Params)
  | AddApplicationUsingPOST1 (req : application_controller.AddApplicationUsingPOST1Params)
  | UpdateApplicationV2UsingPUT1 (req : application_controller.UpdateApplicationV2UsingPUT1Params)
  | DeleteApplicationUsingDELETE1 (req : application_controller.DeleteApplicationUsingDELETE1Params)
  | GetSegmentGroupUsingGET1 (req : segment_group_controller.GetSegmentGroupUsingGET1Params)
  | AddSegmentGroupUsingPOST1 (req : segment_group_controller.AddSegmentGroupUsingPOST1Params)
  | UpdateSegmentGroupUsingPUT1 (req : segment_group_controller.UpdateSegmentGroupUsingPUT1Params)
  | DeleteSegmentGroupUsingDELETE1 (req : segment_group_controller.DeleteSegmentGroupUsingDELETE1Params)
deriving DecidableEq, Repr

/-- What a controller operation leaves behind: the value and error it returns, the
managed resource as it is after the call, and the remote calls it issued, in
order. -/
structure Outcome (α : Type) where
  value : α
  err : Option Error
  mg : resource.Managed
  calls : List RemoteCall

/-- The zero value `managed.ExternalObservation{}`. -/
def ExternalObservation.zero : ExternalObservation :=
  { ResourceExists := false, ResourceUpToDate := false, ResourceLateInitialized := false }

/-- The zero value `managed.ExternalCreation{}`. -/
def ExternalCreation.zero : ExternalCreation :=
  { ExternalNameAssigned := false }

/-! ## Package `application`: `pkg/controller/applicationsegment/controller.go` -/

namespace application

open application_controller

def errNotApplicationSegment : String :=
  "managed resource is not an ApplicationSegment custom resource"
def errCreateFailed : String := "cannot create ApplicationSegment"
def errDescribeFailed : String := "cannot describe ApplicationSegment"
def errUpdateFailed : String := "cannot update ApplicationSegment"
def errDeleteFailed : String := "cannot delete ApplicationSegment"

/-- The `external` client of the controller (the `kube` field is not used by the
operations). -/
structure external where
  client : zpa.ZscalerPrivateAccessAPIPortal

/-- Embeds `LateInitialize`: fills the unset fields of the spec from the read response. -/
def LateInitialize (cr : v1alpha1.ApplicationSegment) (obj : GetApplicationUsingGET1OK) :
    v1alpha1.ApplicationSegment :=
  let cr := if cr.Spec.ForProvider.Enabled = none then
    { cr with Spec.ForProvider.Enabled := zpaclient.Bool obj.Payload.Enabled } else cr
  let cr := if cr.Spec.ForProvider.PassiveHealthEnabled = none then
    { cr with Spec.ForProvider.PassiveHealthEnabled :=
        zpaclient.Bool obj.Payload.PassiveHealthEnabled } else cr
  let cr := if cr.Spec.ForProvider.DoubleEncrypt = none then
    { cr with Spec.ForProvider.DoubleEncrypt := zpaclient.Bool obj.Payload.DoubleEncrypt } else cr
  let cr := if cr.Spec.ForProvider.ConfigSpace = "" then
    { cr with Spec.ForProvider.ConfigSpace := obj.Payload.ConfigSpace } else cr
  let cr := if cr.Spec.ForProvider.BypassType = "" then
    { cr with Spec.ForProvider.BypassType := obj.Payload.BypassType } else cr
  let cr := if cr.Spec.ForProvider.HealthCheckType = "" then
    { cr with Spec.ForProvider.HealthCheckType := obj.Payload.HealthCheckType } else cr
  let cr := if cr.Spec.ForProvider.IcmpAccessType = "" then
    { cr with Spec.ForProvider.IcmpAccessType := obj.Payload.IcmpAccessType } else cr
  let cr := if cr.Spec.ForProvider.IsCnameEnabled = none then
    { cr with Spec.ForProvider.IsCnameEnabled := zpaclient.Bool obj.Payload.IsCnameEnabled } else cr
  let cr := if cr.Spec.ForProvider.IPAnchored = none then
    { cr with Spec.ForProvider.IPAnchored := zpaclient.Bool obj.Payload.IPAnchored } else cr
  let cr := if cr.Spec.ForProvider.HealthReporting = "" then
    { cr with Spec.ForProvider.HealthReporting := obj.Payload.HealthReporting } else cr
  cr

/-- Embeds `generateObservation`: the observation for the read response. -/
def generateObservation (gobj : GetApplicationUsingGET1OK) :
    v1alpha1.ApplicationSegmentObservation :=
  let obj := gobj.Payload
  { CreationTime := obj.CreationTime
    ID := obj.ID
    ModifiedBy := obj.ModifiedBy
    ModifiedTime := obj.ModifiedTime }

/-- Embeds `isUpToDate`: checks whether there is a change in any of the modifiable fields. -/
def isUpToDate (cr : v1alpha1.ApplicationSegmentParameters) (gobj : GetApplicationUsingGET1OK) :
    Bool :=
  let obj := gobj.Payload
  if !zpaclient.IsEqualString (zpaclient.StringToPtr cr.BypassType)
      (zpaclient.StringToPtr obj.BypassType) then false
  else if !zpaclient.IsEqualString (zpaclient.StringToPtr cr.ConfigSpace)
      (zpaclient.StringToPtr obj.ConfigSpace) then false
  else if !zpaclient.IsEqualString (zpaclient.StringToPtr cr.DefaultIdleTimeout)
      (zpaclient.StringToPtr obj.DefaultIdleTimeout) then false
  else if !zpaclient.IsEqualString (zpaclient.StringToPtr cr.DefaultMaxAge)
      (zpaclient.StringToPtr obj.DefaultMaxAge) then false
  else if !zpaclient.IsEqualString (zpaclient.StringToPtr cr.Description)
      (zpaclient.StringToPtr obj.Description) then false
  else if !zpaclient.IsEqualBool cr.DoubleEncrypt (zpaclient.Bool obj.DoubleEncrypt) then false
  else if !zpaclient.IsEqualBool cr.Enabled (zpaclient.Bool obj.Enabled) then false
  else if !zpaclient.IsEqualString (zpaclient.StringToPtr cr.HealthCheckType)
      (zpaclient.StringToPtr obj.HealthCheckType) then false
  else if !zpaclient.IsEqualString (zpaclient.StringToPtr cr.HealthReporting)
      (zpaclient.StringToPtr obj.HealthReporting) then false
  else if !zpaclient.IsEqualBool cr.IPAnchored (zpaclient.Bool obj.IPAnchored) then false
  else if !zpaclient.IsEqualString (zpaclient.StringToPtr cr.IcmpAccessType)
      (zpaclient.StringToPtr obj.IcmpAccessType) then false
  else if !zpaclient.IsEqualBool cr.IsCnameEnabled (zpaclient.Bool obj.IsCnameEnabled) then false
  else if !zpaclient.IsEqualBool cr.PassiveHealthEnabled
      (zpaclient.Bool obj.PassiveHealthEnabled) then false
  else if !zpaclient.IsEqualStringArrayContent cr.DomainNames obj.DomainNames then false
  else if !zpaclient.IsEqualStringArrayContent cr.TCPPortRanges obj.TCPPortRanges then false
  else if !zpaclient.IsEqualStringArrayContent cr.UDPPortRanges obj.UDPPortRanges then false
  else true

/-- The `models.ApplicationResource` literal that `Create` and `Update` build from
the resource; the fields the literal does not name have their zero value. -/
def payload (cr : v1alpha1.ApplicationSegment) : models.ApplicationResource :=
  { BypassType := cr.Spec.ForProvider.BypassType
    ConfigSpace := cr.Spec.ForProvider.ConfigSpace
    DefaultIdleTimeout := cr.Spec.ForProvider.DefaultIdleTimeout
    DefaultMaxAge := cr.Spec.ForProvider.DefaultMaxAge
    Description := cr.Spec.ForProvider.Description
    DomainNames := cr.Spec.ForProvider.DomainNames
    DoubleEncrypt := zpaclient.BoolValue cr.Spec.ForProvider.DoubleEncrypt
    Enabled := zpaclient.BoolValue cr.Spec.ForProvider.Enabled
    HealthCheckType := cr.Spec.ForProvider.HealthCheckType
    HealthReporting := cr.Spec.ForProvider.HealthReporting
    IcmpAccessType := cr.Spec.ForProvider.IcmpAccessType
    IPAnchored := zpaclient.BoolValue cr.Spec.ForProvider.IPAnchored
    IsCnameEnabled := zpaclient.BoolValue cr.Spec.ForProvider.IsCnameEnabled
    Name := cr.Name
    PassiveHealthEnabled := zpaclient.BoolValue cr.Spec.ForProvider.PassiveHealthEnabled
    SegmentGroupID := zpaclient.StringValue cr.Spec.ForProvider.SegmentGroupID
    TCPPortRanges := cr.Spec.ForProvider.TCPPortRanges
    UDPPortRanges := cr.Spec.ForProvider.UDPPortRanges
    CreationTime := ""
    ID := ""
    ModifiedBy := ""
    ModifiedTime := "" }

/-- Embeds `Observe`. `IsNotFound` is the package's not-found predicate on errors, whose
definition is not among the sources. -/
def Observe (IsNotFound : Error → Bool) (e : external) (mg : resource.Managed) :
    Outcome ExternalObservation :=
  match mg with
  | .ApplicationSegment cr =>
    let id := cr.ExternalName
    if id = "" then
      { value := { ResourceExists := false, ResourceUpToDate := false,
                   ResourceLateInitialized := false },
        err := none, mg := mg, calls := [] }
    else
      let req : GetApplicationUsingGET1Params :=
        { ApplicationID := id, CustomerID := cr.Spec.ForProvider.CustomerID }
      match e.client.ApplicationController.GetApplicationUsingGET1 req with
      | .error reqErr =>
        { value := { ResourceExists := false, ResourceUpToDate := false,
                     ResourceLateInitialized := false },
          err := errors.Wrap (resource.Ignore IsNotFound (some reqErr)) errDescribeFailed,
          mg := mg, calls := [RemoteCall.GetApplicationUsingGET1 req] }
      | .ok resp =>
        let cr := { cr with Status.AtProvider := generateObservation resp }
        let currentSpec := cr.Spec.ForProvider
        let cr := LateInitialize cr resp
        let cr := { cr with Status.Conditions := SetConditions cr.Status.Conditions v1.Available }
        { value := { ResourceExists := true,
                     ResourceUpToDate := isUpToDate cr.Spec.ForProvider resp,
                     ResourceLateInitialized := !decide (cr.Spec.ForProvider = currentSpec) },
          err := none, mg := .ApplicationSegment cr,
          calls := [RemoteCall.GetApplicationUsingGET1 req] }
  | _ => { value := ExternalObservation.zero, err := errors.New errNotApplicationSegment,
           mg := mg, calls := [] }

/-- Embeds `Create`. The dereference `*zpaclient.String(resp.Payload.ID)` is the `getD` of
the pointer. -/
def Create (e : external) (mg : resource.Managed) : Outcome ExternalCreation :=
  match mg with
  | .ApplicationSegment cr =>
    let req : AddApplicationUsingPOST1Params :=
      { CustomerID := cr.Spec.ForProvider.CustomerID, Application := payload cr }
    match e.client.ApplicationController.AddApplicationUsingPOST1 req with
    | .error err =>
      { value := ExternalCreation.zero, err := errors.Wrap (some err) errCreateFailed,
        mg := mg, calls := [RemoteCall.AddApplicationUsingPOST1 req] }
    | .ok resp =>
      let cr := { cr with ExternalName := (zpaclient.String resp.Payload.ID).getD "" }
      { value := { ExternalNameAssigned := true }, err := none,
        mg := .ApplicationSegment cr, calls := [RemoteCall.AddApplicationUsingPOST1 req] }
  | _ => { value := ExternalCreation.zero, err := errors.New errNotApplicationSegment,
           mg := mg, calls := [] }

/-- Embeds `Update`. -/
def Update (e : external) (mg : resource.Managed) : Outcome ExternalUpdate :=
  match mg with
  | .ApplicationSegment cr =>
    let req : UpdateApplicationV2UsingPUT1Params :=
      { CustomerID := cr.Spec.ForProvider.CustomerID, ApplicationID := cr.ExternalName,
        Application := payload cr }
    match e.client.ApplicationController.UpdateApplicationV2UsingPUT1 req with
    | some err =>
      { value := {}, err := errors.Wrap (some err) errUpdateFailed,
        mg := mg, calls := [RemoteCall.UpdateApplicationV2UsingPUT1 req] }
    | none =>
      { value := {}, err := none, mg := mg,
        calls := [RemoteCall.UpdateApplicationV2UsingPUT1 req] }
  | _ => { value := {}, err := errors.New errNotApplicationSegment, mg := mg, calls := [] }

/-- Embeds `Delete`. -/
def Delete (e : external) (mg : resource.Managed) : Outcome Unit :=
  match mg with
  | .ApplicationSegment cr =>
    let id := cr.ExternalName
    if id = "" then
      { value := (), err := errors.New errNotApplicationSegment, mg := mg, calls := [] }
    else
      let forceDeleteApplication := true
      let req : DeleteApplicationUsingDELETE1Params :=
        { ApplicationID := id, CustomerID := cr.Spec.ForProvider.CustomerID,
          ForceDelete := some forceDeleteApplication }
      match e.client.ApplicationController.DeleteApplicationUsingDELETE1 req with
      | some err =>
        { value := (), err := errors.Wrap (some err) errDeleteFailed,
          mg := mg, calls := [RemoteCall.DeleteApplicationUsingDELETE1 req] }
      | none =>
        { value := (), err := none, mg := mg,
          calls := [RemoteCall.DeleteApplicationUsingDELETE1 req] }
  | _ => { value := (), err := errors.New errNotApplicationSegment, mg := mg, calls := [] }

end application

/-! ## Package `segment`: `pkg/controller/segmentgroup/controller.go` -/

namespace segment

open segment_group_controller

def errNotSegmentGroup : String := "managed resource is not an SegmentGroup custom resource"
def errCreateFailed : String := "cannot create SegmentGroup"
def errUpdateFailed : String := "cannot update SegmentGroup"
def errDescribeFailed : String := "cannot describe SegmentGroup"
def errDeleteFailed : String := "cannot delete SegmentGroup"

/-- The `external` client of the controller (the `kube` field is not used by the
operations). -/
structure external where
  client : zpa.ZscalerPrivateAccessAPIPortal

/-- Embeds `LateInitialize`: fills the unset fields of the spec from the read response. -/
def LateInitialize (cr : v1alpha1.SegmentGroup) (obj : GetSegmentGroupUsingGET1OK) :
    v1alpha1.SegmentGroup :=
  let cr := if cr.Spec.ForProvider.ConfigSpace = "" ∧ obj.Payload.ConfigSpace ≠ "" then
    { cr with Spec.ForProvider.ConfigSpace := obj.Payload.ConfigSpace } else cr
  let cr := if cr.Spec.ForProvider.TCPKeepAliveEnabled = "" ∧
      obj.Payload.TCPKeepAliveEnabled ≠ "" then
    { cr with Spec.ForProvider.TCPKeepAliveEnabled := obj.Payload.TCPKeepAliveEnabled } else cr
  cr

/-- Embeds `generateObservation`: the observation for the read response. -/
def generateObservation (gobj : GetSegmentGroupUsingGET1OK) : v1alpha1.SegmentGroupObservation :=
  let obj := gobj.Payload
  { CreationTime := obj.CreationTime
    ID := obj.ID
    ModifiedBy := obj.ModifiedBy
    ModifiedTime := obj.ModifiedTime
    PolicyMigrated := obj.PolicyMigrated }

/-- Embeds `isUpToDate`: checks whether there is a change in any of the modifiable fields. -/
def isUpToDate (cr : v1alpha1.SegmentGroupParameters) (gobj : GetSegmentGroupUsingGET1OK) :
    Bool :=
  let obj := gobj.Payload
  if !zpaclient.IsEqualString (zpaclient.StringToPtr cr.Description)
      (zpaclient.StringToPtr obj.Description) then false
  else if !zpaclient.IsEqualString (zpaclient.StringToPtr cr.ConfigSpace)
      (zpaclient.StringToPtr obj.ConfigSpace) then false
  else if !zpaclient.IsEqualString (zpaclient.StringToPtr cr.TCPKeepAliveEnabled)
      (zpaclient.StringToPtr obj.TCPKeepAliveEnabled) then false
  else true

/-- The `models.SegmentGroup` literal that `Create` builds from the resource; the
fields the literal does not name have their zero value. -/
def createPayload (cr : v1alpha1.SegmentGroup) : models.SegmentGroup :=
  { Name := zpaclient.String cr.Name
    ConfigSpace := cr.Spec.ForProvider.ConfigSpace
    Description := cr.Spec.ForProvider.Description
    Enabled := zpaclient.BoolValue cr.Spec.ForProvider.Enabled
    TCPKeepAliveEnabled := cr.Spec.ForProvider.TCPKeepAliveEnabled
    CreationTime := ""
    ID := ""
    ModifiedBy := ""
    ModifiedTime := ""
    PolicyMigrated := false }

/-- The `models.SegmentGroup` literal that `Update` builds from the resource. -/
def updatePayload (cr : v1alpha1.SegmentGroup) : models.SegmentGroup :=
  { Name := zpaclient.String cr.Name
    ID := cr.ExternalName
    ConfigSpace := cr.Spec.ForProvider.ConfigSpace
    Description := cr.Spec.ForProvider.Description
    Enabled := zpaclient.BoolValue cr.Spec.ForProvider.Enabled
    TCPKeepAliveEnabled := cr.Spec.ForProvider.TCPKeepAliveEnabled
    CreationTime := ""
    ModifiedBy := ""
    ModifiedTime := ""
    PolicyMigrated := false }

/-- Embeds `Observe`. `IsNotFound` is the package's not-found predicate on errors, whose
definition is not among the sources. -/
def Observe (IsNotFound : Error → Bool) (e : external) (mg : resource.Managed) :
    Outcome ExternalObservation :=
  match mg with
  | .SegmentGroup cr =>
    let id := cr.ExternalName
    if id = "" then
      { value := { ResourceExists := false, ResourceUpToDate := false,
                   ResourceLateInitialized := false },
        err := none, mg := mg, calls := [] }
    else
      let req : GetSegmentGroupUsingGET1Params :=
        { SegmentGroupID := id, CustomerID := cr.Spec.ForProvider.CustomerID }
      match e.client.SegmentGroupController.GetSegmentGroupUsingGET1 req with
      | .error reqErr =>
        { value := { ResourceExists := false, ResourceUpToDate := false,
                     ResourceLateInitialized := false },
          err := errors.Wrap (resource.Ignore IsNotFound (some reqErr)) errDescribeFailed,
          mg := mg, calls := [RemoteCall.GetSegmentGroupUsingGET1 req] }
      | .ok resp =>
        let cr := { cr with Status.AtProvider := generateObservation resp }
        let currentSpec := cr.Spec.ForProvider
        let cr := LateInitialize cr resp
        let cr := { cr with Status.Conditions := SetConditions cr.Status.Conditions v1.Available }
        { value := { ResourceExists := true,
                     ResourceUpToDate := isUpToDate cr.Spec.ForProvider resp,
                     ResourceLateInitialized := !decide (cr.Spec.ForProvider = currentSpec) },
          err := none, mg := .SegmentGroup cr,
          calls := [RemoteCall.GetSegmentGroupUsingGET1 req] }
  | _ => { value := ExternalObservation.zero, err := errors.New errNotSegmentGroup,
           mg := mg, calls := [] }

/-- Embeds `Create`. The dereference `*zpaclient.String(resp.Payload.ID)` is the `getD` of
the pointer. -/
def Create (e : external) (mg : resource.Managed) : Outcome ExternalCreation :=
  match mg with
  | .SegmentGroup cr =>
    let req : AddSegmentGroupUsingPOST1Params :=
      { CustomerID := cr.Spec.ForProvider.CustomerID, SegmentGroup := createPayload cr }
    match e.client.SegmentGroupController.AddSegmentGroupUsingPOST1 req with
    | .error err =>
      { value := ExternalCreation.zero, err := errors.Wrap (some err) errCreateFailed,
        mg := mg, calls := [RemoteCall.AddSegmentGroupUsingPOST1 req] }
    | .ok resp =>
      let cr := { cr with ExternalName := (zpaclient.String resp.Payload.ID).getD "" }
      { value := { ExternalNameAssigned := true }, err := none,
        mg := .SegmentGroup cr, calls := [RemoteCall.AddSegmentGroupUsingPOST1 req] }
  | _ => { value := ExternalCreation.zero, err := errors.New errNotSegmentGroup,
           mg := mg, calls := [] }

/-- Embeds `Update`. -/
def Update (e : external) (mg : resource.Managed) : Outcome ExternalUpdate :=
  match mg with
  | .SegmentGroup cr =>
    let req : UpdateSegmentGroupUsingPUT1Params :=
      { CustomerID := cr.Spec.ForProvider.CustomerID, SegmentGroupID := cr.ExternalName,
        SegmentGroup := updatePayload cr }
    match e.client.SegmentGroupController.UpdateSegmentGroupUsingPUT1 req with
    | some err =>
      { value := {}, err := errors.Wrap (some err) errUpdateFailed,
        mg := mg, calls := [RemoteCall.UpdateSegmentGroupUsingPUT1 req] }
    | none =>
      { value := {}, err := none, mg := mg,
        calls := [RemoteCall.UpdateSegmentGroupUsingPUT1 req] }
  | _ => { value := {}, err := errors.New errNotSegmentGroup, mg := mg, calls := [] }

/-- Embeds `Delete`. -/
def Delete (e : external) (mg : resource.Managed) : Outcome Unit :=
  match mg with
  | .SegmentGroup cr =>
    let id := cr.ExternalName
    if id = "" then
      { value := (), err := errors.New errNotSegmentGroup, mg := mg, calls := [] }
    else
      let req : DeleteSegmentGroupUsingDELETE1Params :=
        { SegmentGroupID := id, CustomerID := cr.Spec.ForProvider.CustomerID }
      match e.client.SegmentGroupController.DeleteSegmentGroupUsingDELETE1 req with
      | some err =>
        { value := (), err := errors.Wrap (some err) errDeleteFailed,
          mg := mg, calls := [RemoteCall.DeleteSegmentGroupUsingDELETE1 req] }
      | none =>
        { value := (), err := none, mg := mg,
          calls := [RemoteCall.DeleteSegmentGroupUsingDELETE1 req] }
  | _ => { value := (), err := errors.New errNotSegmentGroup, mg := mg, calls := [] }

end segment

/-! ## Sample data -/

/-- An application segment spec with every optional field unset. -/
def sampleAppParams : v1alpha1.ApplicationSegmentParameters :=
  { CustomerID := "c1", BypassType := "", ConfigSpace := "", DefaultIdleTimeout := "",
    DefaultMaxAge := "", Description := "", DomainNames := ["a.com"], DoubleEncrypt := none,
    Enabled := none, HealthCheckType := "", HealthReporting := "", IcmpAccessType := "",
    IPAnchored := none, IsCnameEnabled := none, PassiveHealthEnabled := none,
    SegmentGroupID := none, TCPPortRanges := [], UDPPortRanges := [] }

/-- An application segment resource around a spec, with the given external name. -/
def sampleApp (name : String) (p : v1alpha1.ApplicationSegmentParameters) :
    v1alpha1.ApplicationSegment :=
  { Name := "app", ExternalName := name, Spec := { ForProvider := p },
    Status := { AtProvider := { CreationTime := "", ID := "", ModifiedBy := "",
                                ModifiedTime := "" },
                Conditions := [] } }

/-- A read response of the application endpoint that echoes the payload built from
the sample spec, with the given identifier. -/
def sampleAppResponse (id : String) : application_controller.GetApplicationUsingGET1OK :=
  { Payload := { application.payload (sampleApp id sampleAppParams) with ID := id } }

/-- A segment group spec with every optional field unset. -/
def sampleGroupParams : v1alpha1.SegmentGroupParameters :=
  { CustomerID := "c1", ConfigSpace := "", Description := "", Enabled := none,
    TCPKeepAliveEnabled := "" }

/-- A segment group resource around a spec, with the given external name. -/
def sampleGroup (name : String) (p : v1alpha1.SegmentGroupParameters) : v1alpha1.SegmentGroup :=
  { Name := "grp", ExternalName := name, Spec := { ForProvider := p },
    Status := { AtProvider := { CreationTime := "", ID := "", ModifiedBy := "",
                                ModifiedTime := "", PolicyMigrated := false },
                Conditions := [] } }

/-- A read response of the segment group endpoint that echoes the payload built
from the sample spec, with the given identifier. -/
def sampleGroupResponse (id : String) : segment_group_controller.GetSegmentGroupUsingGET1OK :=
  { Payload := { segment.createPayload (sampleGroup id sampleGroupParams) with ID := id } }

/-- A read response of the application endpoint like the sample one, except that
the server reports `Enabled = true`. -/
def enabledAppResponse (id : String) : application_controller.GetApplicationUsingGET1OK :=
  { Payload := { (sampleAppResponse id).Payload with Enabled := true } }

/-- A read response of the segment group endpoint like the sample one, except that
the server reports `Enabled = true`. -/
def enabledGroupResponse (id : String) : segment_group_controller.GetSegmentGroupUsingGET1OK :=
  { Payload := { (sampleGroupResponse id).Payload with Enabled := true } }

/-- A remote client that answers every read with the given responses, every create
with the request payload under identifier `id`, and every update and delete with
success. -/
def sampleClient (aresp : application_controller.GetApplicationUsingGET1OK)
    (gresp : segment_group_controller.GetSegmentGroupUsingGET1OK) (id : String) :
    zpa.ZscalerPrivateAccessAPIPortal :=
  { ApplicationController :=
      { GetApplicationUsingGET1 := fun _ => .ok aresp
        AddApplicationUsingPOST1 := fun req => .ok { Payload := { req.Application with ID := id } }
        UpdateApplicationV2UsingPUT1 := fun _ => none
        DeleteApplicationUsingDELETE1 := fun _ => none }
    SegmentGroupController :=
      { GetSegmentGroupUsingGET1 := fun _ => .ok gresp
        AddSegmentGroupUsingPOST1 := fun req => .ok { Payload := { req.SegmentGroup with ID := id } }
        UpdateSegmentGroupUsingPUT1 := fun _ => none
        DeleteSegmentGroupUsingDELETE1 := fun _ => none } }

/-- The sample client that echoes the sample specs under identifier `"x"`. -/
def echoClient : zpa.ZscalerPrivateAccessAPIPortal :=
  sampleClient (sampleAppResponse "x") (sampleGroupResponse "x") "x"

/-- A remote client every call of which fails with the given error. -/
def failingClient (err : Error) : zpa.ZscalerPrivateAccessAPIPortal :=
  { ApplicationController :=
      { GetApplicationUsingGET1 := fun _ => .error err
        AddApplicationUsingPOST1 := fun _ => .error err
        UpdateApplicationV2UsingPUT1 := fun _ => some err
        DeleteApplicationUsingDELETE1 := fun _ => some err }
    SegmentGroupController :=
      { GetSegmentGroupUsingGET1 := fun _ => .error err
        AddSegmentGroupUsingPOST1 := fun _ => .error err
        UpdateSegmentGroupUsingPUT1 := fun _ => some err
        DeleteSegmentGroupUsingDELETE1 := fun _ => some err } }


/-- An application segment spec with every field set. -/
def fullAppParams : v1alpha1.ApplicationSegmentParameters :=
  { CustomerID := "c1", BypassType := "NEVER", ConfigSpace := "DEFAULT",
    DefaultIdleTimeout := "60", DefaultMaxAge := "120", Description := "web",
    DomainNames := ["a.com", "b.com"], DoubleEncrypt := some false, Enabled := some true,
    HealthCheckType := "DEFAULT", HealthReporting := "ON_ACCESS", IcmpAccessType := "NONE",
    IPAnchored := some false, IsCnameEnabled := some true, PassiveHealthEnabled := some true,
    SegmentGroupID := some "sg-2", TCPPortRanges := ["80", "80"], UDPPortRanges := [] }

/-- A read response that echoes the payload built from the full spec, except that
the server has the application in segment group `"sg-1"`. -/
def movedAppResponse : application_controller.GetApplicationUsingGET1OK :=
  { Payload := { application.payload (sampleApp "app-123" fullAppParams) with
                 ID := "app-123", SegmentGroupID := "sg-1" } }

/-- A segment group spec with every field set. -/
def fullGroupParams : v1alpha1.SegmentGroupParameters :=
  { CustomerID := "c1", ConfigSpace := "DEFAULT", Description := "group", Enabled := some true,
    TCPKeepAliveEnabled := "1" }

/-- A read response that echoes the payload built from the full segment group spec,
except that the server has the group disabled. -/
def disabledGroupResponse : segment_group_controller.GetSegmentGroupUsingGET1OK :=
  { Payload := { segment.updatePayload (sampleGroup "sg-1" fullGroupParams) with
                 Enabled := false } }

/-- A not-found predicate on errors: the remote API answered with status 404. -/
def sampleIsNotFound : Error → Bool
  | .API 404 _ => true
  | _ => false

/-! ## Late initialization in closed form -/

/-- A conditional between two application segments is the application segment of
the conditionals of their fields. -/
theorem ite_applicationSegment (c : Prop) [Decidable c] (n n' e e' : String)
    (s s' : v1alpha1.ApplicationSegmentSpec) (t t' : v1alpha1.ApplicationSegmentStatus) :
    (if c then (⟨n, e, s, t⟩ : v1alpha1.ApplicationSegment) else ⟨n', e', s', t'⟩) =
      ⟨if c then n else n', if c then e else e', if c then s else s', if c then t else t'⟩ := by
  split <;> rfl

/-- A conditional between two application segment specs. -/
theorem ite_applicationSegmentSpec (c : Prop) [Decidable c]
    (p p' : v1alpha1.ApplicationSegmentParameters) :
    (if c then (⟨p⟩ : v1alpha1.ApplicationSegmentSpec) else ⟨p'⟩) = ⟨if c then p else p'⟩ := by
  split <;> rfl

/-- A conditional between two application segment parameter records. -/
theorem ite_applicationSegmentParameters (c : Prop) [Decidable c]
    (a1 a2 a3 a4 a5 a6 b1 b2 b3 b4 b5 b6 : String) (a7 b7 : List String)
    (a8 a9 b8 b9 : Option Bool) (a10 a11 a12 b10 b11 b12 : String)
    (a13 a14 a15 b13 b14 b15 : Option Bool) (a16 b16 : Option String)
    (a17 a18 b17 b18 : List String) :
    (if c then (⟨a1, a2, a3, a4, a5, a6, a7, a8, a9, a10, a11, a12, a13, a14, a15, a16, a17,
        a18⟩ : v1alpha1.ApplicationSegmentParameters)
      else ⟨b1, b2, b3, b4, b5, b6, b7, b8, b9, b10, b11, b12, b13, b14, b15, b16, b17, b18⟩) =
      ⟨if c then a1 else b1, if c then a2 else b2, if c then a3 else b3, if c then a4 else b4,
       if c then a5 else b5, if c then a6 else b6, if c then a7 else b7, if c then a8 else b8,
       if c then a9 else b9, if c then a10 else b10, if c then a11 else b11,
       if c then a12 else b12, if c then a13 else b13, if c then a14 else b14,
       if c then a15 else b15, if c then a16 else b16, if c then a17 else b17,
       if c then a18 else b18⟩ := by
  split <;> rfl

/-- The application late initializer, field by field: each of the ten fields it
handles gets the observed value when it is unset and keeps its value otherwise;
nothing else changes. -/
theorem application_LateInitialize_eq (cr : v1alpha1.ApplicationSegment)
    (obj : application_controller.GetApplicationUsingGET1OK) :
    application.LateInitialize cr obj =
      { cr with Spec.ForProvider :=
        { cr.Spec.ForProvider with
          Enabled := if cr.Spec.ForProvider.Enabled = none then
            zpaclient.Bool obj.Payload.Enabled else cr.Spec.ForProvider.Enabled
          PassiveHealthEnabled := if cr.Spec.ForProvider.PassiveHealthEnabled = none then
            zpaclient.Bool obj.Payload.PassiveHealthEnabled
            else cr.Spec.ForProvider.PassiveHealthEnabled
          DoubleEncrypt := if cr.Spec.ForProvider.DoubleEncrypt = none then
            zpaclient.Bool obj.Payload.DoubleEncrypt else cr.Spec.ForProvider.DoubleEncrypt
          ConfigSpace := if cr.Spec.ForProvider.ConfigSpace = "" then
            obj.Payload.ConfigSpace else cr.Spec.ForProvider.ConfigSpace
          BypassType := if cr.Spec.ForProvider.BypassType = "" then
            obj.Payload.BypassType else cr.Spec.ForProvider.BypassType
          HealthCheckType := if cr.Spec.ForProvider.HealthCheckType = "" then
            obj.Payload.HealthCheckType else cr.Spec.ForProvider.HealthCheckType
          IcmpAccessType := if cr.Spec.ForProvider.IcmpAccessType = "" then
            obj.Payload.IcmpAccessType else cr.Spec.ForProvider.IcmpAccessType
          IsCnameEnabled := if cr.Spec.ForProvider.IsCnameEnabled = none then
            zpaclient.Bool obj.Payload.IsCnameEnabled else cr.Spec.ForProvider.IsCnameEnabled
          IPAnchored := if cr.Spec.ForProvider.IPAnchored = none then
            zpaclient.Bool obj.Payload.IPAnchored else cr.Spec.ForProvider.IPAnchored
          HealthReporting := if cr.Spec.ForProvider.HealthReporting = "" then
            obj.Payload.HealthReporting else cr.Spec.ForProvider.HealthReporting } } := by
  obtain ⟨n, en, ⟨fp⟩, st⟩ := cr
  obtain ⟨a1, a2, a3, a4, a5, a6, a7, a8, a9, a10, a11, a12, a13, a14, a15, a16, a17, a18⟩ := fp
  simp only [application.LateInitialize, ite_applicationSegment, ite_applicationSegmentSpec,
    ite_applicationSegmentParameters, ite_self]

/-- The segment group late initializer, field by field: `ConfigSpace` and
`TCPKeepAliveEnabled` get the observed value when they are empty and the observed
value is not; nothing else changes. -/
theorem segment_LateInitialize_eq (cr : v1alpha1.SegmentGroup)
    (obj : segment_group_controller.GetSegmentGroupUsingGET1OK) :
    segment.LateInitialize cr obj =
      { cr with Spec.ForProvider :=
        { cr.Spec.ForProvider with
          ConfigSpace := if cr.Spec.ForProvider.ConfigSpace = "" ∧ obj.Payload.ConfigSpace ≠ ""
            then obj.Payload.ConfigSpace else cr.Spec.ForProvider.ConfigSpace
          TCPKeepAliveEnabled := if cr.Spec.ForProvider.TCPKeepAliveEnabled = "" ∧
              obj.Payload.TCPKeepAliveEnabled ≠ ""
            then obj.Payload.TCPKeepAliveEnabled
            else cr.Spec.ForProvider.TCPKeepAliveEnabled } } := by
  obtain ⟨n, en, ⟨⟨c, cs, d, en', tk⟩⟩, st⟩ := cr
  simp only [segment.LateInitialize]
  split_ifs <;> rfl

/-- The application late initializer applied twice is the late initializer applied
once. -/
theorem application_LateInitialize_twice (cr : v1alpha1.ApplicationSegment)
    (obj : application_controller.GetApplicationUsingGET1OK) :
    application.LateInitialize (application.LateInitialize cr obj) obj =
      application.LateInitialize cr obj := by
  obtain ⟨n, en, ⟨fp⟩, st⟩ := cr
  obtain ⟨a1, a2, a3, a4, a5, a6, a7, a8, a9, a10, a11, a12, a13, a14, a15, a16, a17, a18⟩ := fp
  simp only [application_LateInitialize_eq, zpaclient.Bool]
  congr 3
  · split_ifs <;> simp_all
  · split_ifs <;> simp_all
  · split_ifs <;> simp_all
  · split_ifs <;> simp_all
  · split_ifs <;> simp_all
  · split_ifs <;> simp_all
  · split_ifs <;> simp_all
  · split_ifs <;> simp_all
  · split_ifs <;> simp_all
  · split_ifs <;> simp_all

/-- The segment group late initializer applied twice is the late initializer
applied once. -/
theorem segment_LateInitialize_twice (cr : v1alpha1.SegmentGroup)
    (obj : segment_group_controller.GetSegmentGroupUsingGET1OK) :
    segment.LateInitialize (segment.LateInitialize cr obj) obj =
      segment.LateInitialize cr obj := by
  obtain ⟨n, en, ⟨⟨c, cs, d, en', tk⟩⟩, st⟩ := cr
  simp only [segment_LateInitialize_eq]
  congr 3
  · split_ifs <;> simp_all
  · split_ifs <;> simp_all

/-- The spec after application late initialization depends on the spec before
only. -/
theorem application_LateInitialize_spec_congr (cr cr' : v1alpha1.ApplicationSegment)
    (obj : application_controller.GetApplicationUsingGET1OK) (h : cr.Spec = cr'.Spec) :
    (application.LateInitialize cr obj).Spec = (application.LateInitialize cr' obj).Spec := by
  obtain ⟨n, en, s, st⟩ := cr
  obtain ⟨n', en', s', st'⟩ := cr'
  simp only at h
  subst h
  rw [application_LateInitialize_eq, application_LateInitialize_eq]

/-- The spec after segment group late initialization depends on the spec before
only. -/
theorem segment_LateInitialize_spec_congr (cr cr' : v1alpha1.SegmentGroup)
    (obj : segment_group_controller.GetSegmentGroupUsingGET1OK) (h : cr.Spec = cr'.Spec) :
    (segment.LateInitialize cr obj).Spec = (segment.LateInitialize cr' obj).Spec := by
  obtain ⟨n, en, s, st⟩ := cr
  obtain ⟨n', en', s', st'⟩ := cr'
  simp only at h
  subst h
  rw [segment_LateInitialize_eq, segment_LateInitialize_eq]

/-- What `Observe` does on an application segment with an external name when the
remote read succeeds. -/
theorem application_Observe_ok (IsNotFound : Error → Bool) (e : application.external)
    (cr : v1alpha1.ApplicationSegment) (resp : application_controller.GetApplicationUsingGET1OK)
    (hname : cr.ExternalName ≠ "")
    (hread : e.client.ApplicationController.GetApplicationUsingGET1
      { ApplicationID := cr.ExternalName, CustomerID := cr.Spec.ForProvider.CustomerID } =
        .ok resp) :
    application.Observe IsNotFound e (.ApplicationSegment cr) =
      { value :=
          { ResourceExists := true
            ResourceUpToDate := application.isUpToDate
              (application.LateInitialize
                { cr with Status.AtProvider := application.generateObservation resp }
                resp).Spec.ForProvider resp
            ResourceLateInitialized := !decide
              ((application.LateInitialize
                { cr with Status.AtProvider := application.generateObservation resp }
                resp).Spec.ForProvider = cr.Spec.ForProvider) }
        err := none
        mg := .ApplicationSegment
          { application.LateInitialize
              { cr with Status.AtProvider := application.generateObservation resp } resp with
            Status.Conditions := SetConditions
              (application.LateInitialize
                { cr with Status.AtProvider := application.generateObservation resp }
                resp).Status.Conditions v1.Available }
        calls := [RemoteCall.GetApplicationUsingGET1
          { ApplicationID := cr.ExternalName, CustomerID := cr.Spec.ForProvider.CustomerID }] } := by
  unfold application.Observe
  dsimp only
  rw [if_neg hname, hread]

/-- What `Observe` does on a segment group with an external name when the remote
read succeeds. -/
theorem segment_Observe_ok (IsNotFound : Error → Bool) (e : segment.external)
    (cr : v1alpha1.SegmentGroup) (resp : segment_group_controller.GetSegmentGroupUsingGET1OK)
    (hname : cr.ExternalName ≠ "")
    (hread : e.client.SegmentGroupController.GetSegmentGroupUsingGET1
      { SegmentGroupID := cr.ExternalName, CustomerID := cr.Spec.ForProvider.CustomerID } =
        .ok resp) :
    segment.Observe IsNotFound e (.SegmentGroup cr) =
      { value :=
          { ResourceExists := true
            ResourceUpToDate := segment.isUpToDate
              (segment.LateInitialize
                { cr with Status.AtProvider := segment.generateObservation resp }
                resp).Spec.ForProvider resp
            ResourceLateInitialized := !decide
              ((segment.LateInitialize
                { cr with Status.AtProvider := segment.generateObservation resp }
                resp).Spec.ForProvider = cr.Spec.ForProvider) }
        err := none
        mg := .SegmentGroup
          { segment.LateInitialize
              { cr with Status.AtProvider := segment.generateObservation resp } resp with
            Status.Conditions := SetConditions
              (segment.LateInitialize
                { cr with Status.AtProvider := segment.generateObservation resp }
                resp).Status.Conditions v1.Available }
        calls := [RemoteCall.GetSegmentGroupUsingGET1
          { SegmentGroupID := cr.ExternalName, CustomerID := cr.Spec.ForProvider.CustomerID }] } := by
  unfold segment.Observe
  dsimp only
  rw [if_neg hname, hread]

/-! ## The comparisons of the drift detector -/

/-- Normalizing a string to a pointer loses nothing: two strings have the same
normal form exactly when they are equal. -/
theorem StringToPtr_inj (a b : String) :
    zpaclient.StringToPtr a = zpaclient.StringToPtr b ↔ a = b := by
  unfold zpaclient.StringToPtr
  by_cases ha : a = "" <;> by_cases hb : b = "" <;> simp [ha, hb]
  exact fun h => hb h.symm

/-- Comparing the normal forms of two strings is comparing the strings. -/
theorem IsEqualString_StringToPtr (a b : String) :
    zpaclient.IsEqualString (zpaclient.StringToPtr a) (zpaclient.StringToPtr b) =
      decide (a = b) := by
  unfold zpaclient.StringToPtr zpaclient.IsEqualString
  by_cases ha : a = "" <;> by_cases hb : b = "" <;> simp [ha, hb]
  exact fun h => hb h.symm

/-- Comparing an optional boolean with a pointer to an observed boolean is comparing
its value, `false` when it is unset, with the observed boolean. -/
theorem IsEqualBool_Bool (x : Option Bool) (y : Bool) :
    zpaclient.IsEqualBool x (zpaclient.Bool y) = decide (x.getD false = y) := by
  cases x <;> simp [zpaclient.IsEqualBool, zpaclient.Bool, zpaclient.BoolValue]

/-- Two lists have equal content exactly when they have the same elements. -/
theorem IsEqualStringArrayContent_iff (s1 s2 : List String) :
    zpaclient.IsEqualStringArrayContent s1 s2 = true ↔ ∀ x, x ∈ s1 ↔ x ∈ s2 := by
  simp only [zpaclient.IsEqualStringArrayContent, Bool.and_eq_true, List.all_eq_true,
    List.elem_eq_mem, List.contains_eq_any_beq, List.any_eq_true, beq_iff_eq, exists_eq_right,
    decide_eq_true_eq]
  constructor
  · rintro ⟨h1, h2⟩ x
    exact ⟨h1 x, h2 x⟩
  · intro h
    exact ⟨fun x hx => (h x).1 hx, fun x hx => (h x).2 hx⟩

/-- One step of a fail-fast chain of comparisons. -/
theorem failFast_step (a r : Bool) : (if (!a) = true then false else r) = (a && r) := by
  cases a <;> rfl

/-- The application drift detector is the conjunction of its sixteen comparisons. -/
theorem application_isUpToDate_eq (cr : v1alpha1.ApplicationSegmentParameters)
    (gobj : application_controller.GetApplicationUsingGET1OK) :
    application.isUpToDate cr gobj =
      (decide (cr.BypassType = gobj.Payload.BypassType) &&
       (decide (cr.ConfigSpace = gobj.Payload.ConfigSpace) &&
       (decide (cr.DefaultIdleTimeout = gobj.Payload.DefaultIdleTimeout) &&
       (decide (cr.DefaultMaxAge = gobj.Payload.DefaultMaxAge) &&
       (decide (cr.Description = gobj.Payload.Description) &&
       (decide (cr.DoubleEncrypt.getD false = gobj.Payload.DoubleEncrypt) &&
       (decide (cr.Enabled.getD false = gobj.Payload.Enabled) &&
       (decide (cr.HealthCheckType = gobj.Payload.HealthCheckType) &&
       (decide (cr.HealthReporting = gobj.Payload.HealthReporting) &&
       (decide (cr.IPAnchored.getD false = gobj.Payload.IPAnchored) &&
       (decide (cr.IcmpAccessType = gobj.Payload.IcmpAccessType) &&
       (decide (cr.IsCnameEnabled.getD false = gobj.Payload.IsCnameEnabled) &&
       (decide (cr.PassiveHealthEnabled.getD false = gobj.Payload.PassiveHealthEnabled) &&
       (zpaclient.IsEqualStringArrayContent cr.DomainNames gobj.Payload.DomainNames &&
       (zpaclient.IsEqualStringArrayContent cr.TCPPortRanges gobj.Payload.TCPPortRanges &&
       (zpaclient.IsEqualStringArrayContent cr.UDPPortRanges gobj.Payload.UDPPortRanges &&
        true)))))))))))))))) := by
  simp only [application.isUpToDate, failFast_step, IsEqualString_StringToPtr, IsEqualBool_Bool]

/-- The segment group drift detector is the conjunction of its three comparisons. -/
theorem segment_isUpToDate_eq (cr : v1alpha1.SegmentGroupParameters)
    (gobj : segment_group_controller.GetSegmentGroupUsingGET1OK) :
    segment.isUpToDate cr gobj =
      (decide (cr.Description = gobj.Payload.Description) &&
       (decide (cr.ConfigSpace = gobj.Payload.ConfigSpace) &&
       (decide (cr.TCPKeepAliveEnabled = gobj.Payload.TCPKeepAliveEnabled) && true))) := by
  simp only [segment.isUpToDate, failFast_step, IsEqualString_StringToPtr]

/-- A list has the same content as itself. -/
theorem IsEqualStringArrayContent_self (s : List String) :
    zpaclient.IsEqualStringArrayContent s s = true :=
  (IsEqualStringArrayContent_iff s s).2 fun _ => Iff.rfl

/-- A spec late-initialized from a read response that carries the field values of
the payload built from that spec is up to date with the response. -/
theorem application_isUpToDate_of_echo (cr : v1alpha1.ApplicationSegment)
    (obj : application_controller.GetApplicationUsingGET1OK) (id ct mb mt : String)
    (hecho : obj.Payload = { application.payload cr with
      ID := id, CreationTime := ct, ModifiedBy := mb, ModifiedTime := mt }) :
    application.isUpToDate (application.LateInitialize cr obj).Spec.ForProvider obj = true := by
  obtain ⟨p⟩ := obj
  simp only at hecho
  subst hecho
  obtain ⟨n, en, ⟨fp⟩, st⟩ := cr
  obtain ⟨a1, a2, a3, a4, a5, a6, a7, a8, a9, a10, a11, a12, a13, a14, a15, a16, a17, a18⟩ := fp
  rw [application_LateInitialize_eq, application_isUpToDate_eq]
  simp only [application.payload, ite_self, IsEqualStringArrayContent_self, decide_True,
    Bool.and_true, Bool.true_and, Bool.and_eq_true, decide_eq_true_eq]
  refine ⟨?_, ?_, ?_, ?_, ?_⟩
  · cases a8 <;> simp [zpaclient.Bool, zpaclient.BoolValue]
  · cases a9 <;> simp [zpaclient.Bool, zpaclient.BoolValue]
  · cases a13 <;> simp [zpaclient.Bool, zpaclient.BoolValue]
  · cases a14 <;> simp [zpaclient.Bool, zpaclient.BoolValue]
  · cases a15 <;> simp [zpaclient.Bool, zpaclient.BoolValue]

/-! ## Observe without an external name -/

/-- C1: for both resource kinds, `Observe` on a resource of the expected kind whose
external name is the empty string returns `ResourceExists = false`,
`ResourceUpToDate = false` and a nil error, issues no call on the remote client,
and leaves the resource (its spec and status included) as it was. -/
theorem observe_without_external_name (IsNotFound : Error → Bool)
    (ea : application.external) (es : segment.external)
    (a : v1alpha1.ApplicationSegment) (g : v1alpha1.SegmentGroup)
    (ha : a.ExternalName = "") (hg : g.ExternalName = "") :
    ((application.Observe IsNotFound ea (.ApplicationSegment a)).value.ResourceExists = false ∧
     (application.Observe IsNotFound ea (.ApplicationSegment a)).value.ResourceUpToDate = false ∧
     (application.Observe IsNotFound ea (.ApplicationSegment a)).err = none ∧
     (application.Observe IsNotFound ea (.ApplicationSegment a)).calls = [] ∧
     (application.Observe IsNotFound ea (.ApplicationSegment a)).mg = .ApplicationSegment a) ∧
    ((segment.Observe IsNotFound es (.SegmentGroup g)).value.ResourceExists = false ∧
     (segment.Observe IsNotFound es (.SegmentGroup g)).value.ResourceUpToDate = false ∧
     (segment.Observe IsNotFound es (.SegmentGroup g)).err = none ∧
     (segment.Observe IsNotFound es (.SegmentGroup g)).calls = [] ∧
     (segment.Observe IsNotFound es (.SegmentGroup g)).mg = .SegmentGroup g) := by
  constructor
  · simp [application.Observe, ha]
  · simp [segment.Observe, hg]

/-- Witness of C1: the sample resources without an external name, against a client
that would answer every call. -/
theorem observe_without_external_name_witness :
    ((sampleApp "" sampleAppParams).ExternalName = "" ∧
     (sampleGroup "" sampleGroupParams).ExternalName = "") ∧
    ((application.Observe (fun _ => false) ⟨echoClient⟩
        (.ApplicationSegment (sampleApp "" sampleAppParams))).calls = [] ∧
     (segment.Observe (fun _ => false) ⟨echoClient⟩
        (.SegmentGroup (sampleGroup "" sampleGroupParams))).calls = []) :=
  ⟨⟨rfl, rfl⟩,
   (observe_without_external_name (fun _ => false) ⟨echoClient⟩ ⟨echoClient⟩
      (sampleApp "" sampleAppParams) (sampleGroup "" sampleGroupParams) rfl rfl).1.2.2.2.1,
   (observe_without_external_name (fun _ => false) ⟨echoClient⟩ ⟨echoClient⟩
      (sampleApp "" sampleAppParams) (sampleGroup "" sampleGroupParams) rfl rfl).2.2.2.2.1⟩

/-! ## The drift detector decides field-wise equality -/

/-- C2: `isUpToDate` of an application segment returns true if and only if all
sixteen compared fields match: the eight string fields are equal (normalizing the
empty string to unset on both sides changes nothing, which is the third part), the
five boolean fields are equal when an unset desired value counts as `false`, and
the three list fields have the same elements. `isUpToDate` of a segment group
returns true if and only if `Description`, `ConfigSpace` and `TCPKeepAliveEnabled`
are equal. An unset desired boolean matches a server-returned `false`. -/
theorem isUpToDate_iff_fields_match (cr : v1alpha1.ApplicationSegmentParameters)
    (gobj : application_controller.GetApplicationUsingGET1OK)
    (g : v1alpha1.SegmentGroupParameters)
    (sobj : segment_group_controller.GetSegmentGroupUsingGET1OK) :
    (application.isUpToDate cr gobj = true ↔
      (cr.BypassType = gobj.Payload.BypassType ∧
       cr.ConfigSpace = gobj.Payload.ConfigSpace ∧
       cr.DefaultIdleTimeout = gobj.Payload.DefaultIdleTimeout ∧
       cr.DefaultMaxAge = gobj.Payload.DefaultMaxAge ∧
       cr.Description = gobj.Payload.Description ∧
       cr.HealthCheckType = gobj.Payload.HealthCheckType ∧
       cr.HealthReporting = gobj.Payload.HealthReporting ∧
       cr.IcmpAccessType = gobj.Payload.IcmpAccessType) ∧
      (cr.DoubleEncrypt.getD false = gobj.Payload.DoubleEncrypt ∧
       cr.Enabled.getD false = gobj.Payload.Enabled ∧
       cr.IPAnchored.getD false = gobj.Payload.IPAnchored ∧
       cr.IsCnameEnabled.getD false = gobj.Payload.IsCnameEnabled ∧
       cr.PassiveHealthEnabled.getD false = gobj.Payload.PassiveHealthEnabled) ∧
      ((∀ x, x ∈ cr.DomainNames ↔ x ∈ gobj.Payload.DomainNames) ∧
       (∀ x, x ∈ cr.TCPPortRanges ↔ x ∈ gobj.Payload.TCPPortRanges) ∧
       (∀ x, x ∈ cr.UDPPortRanges ↔ x ∈ gobj.Payload.UDPPortRanges))) ∧
    (segment.isUpToDate g sobj = true ↔
      g.Description = sobj.Payload.Description ∧
      g.ConfigSpace = sobj.Payload.ConfigSpace ∧
      g.TCPKeepAliveEnabled = sobj.Payload.TCPKeepAliveEnabled) ∧
    (∀ a b : String, zpaclient.StringToPtr a = zpaclient.StringToPtr b ↔ a = b) ∧
    zpaclient.IsEqualBool none (zpaclient.Bool false) = true ∧
    zpaclient.IsEqualString (zpaclient.StringToPtr "") none = true := by
  refine ⟨?_, ?_, StringToPtr_inj, rfl, rfl⟩
  · rw [application_isUpToDate_eq]
    simp only [Bool.and_eq_true, decide_eq_true_eq, IsEqualStringArrayContent_iff, and_true]
    tauto
  · rw [segment_isUpToDate_eq]
    simp only [Bool.and_eq_true, decide_eq_true_eq, and_true]

/-! ## Fields that are updated but not compared -/

/-- C3, evaluated on the code: the spec asks for segment group `"sg-2"`, so `Update`
would send `SegmentGroupID = "sg-2"`, while the server has the application in
`"sg-1"` and agrees on every other field; `isUpToDate` returns true. Likewise the
segment group spec asks for `Enabled = true`, so `Update` would send
`Enabled = true`, while the server has the group disabled and agrees on every other
field; `isUpToDate` returns true. -/
theorem isUpToDate_misses_updated_fields :
    ((application.payload (sampleApp "app-123" fullAppParams)).SegmentGroupID = "sg-2" ∧
     movedAppResponse.Payload.SegmentGroupID = "sg-1" ∧
     application.isUpToDate (sampleApp "app-123" fullAppParams).Spec.ForProvider
       movedAppResponse = true) ∧
    ((segment.updatePayload (sampleGroup "sg-1" fullGroupParams)).Enabled = true ∧
     disabledGroupResponse.Payload.Enabled = false ∧
     segment.isUpToDate (sampleGroup "sg-1" fullGroupParams).Spec.ForProvider
       disabledGroupResponse = true) := by
  refine ⟨⟨rfl, rfl, ?_⟩, rfl, rfl, ?_⟩
  · decide
  · decide

/-! ## List comparison ignores order -/

/-- C4: the list comparison in the application segment's `isUpToDate` is
order-independent: replacing the desired `DomainNames`, `TCPPortRanges` and
`UDPPortRanges` by permutations of themselves does not change the result of
`isUpToDate`; `["a","b"]` against `["b","a"]` compares equal; and a list field with
an element the other side lacks (as `["a","b"]` against `["a","c"]`) makes
`isUpToDate` return false. -/
theorem isUpToDate_list_order_independent (cr : v1alpha1.ApplicationSegmentParameters)
    (gobj : application_controller.GetApplicationUsingGET1OK) (d t u : List String)
    (hd : d.Perm cr.DomainNames) (ht : t.Perm cr.TCPPortRanges)
    (hu : u.Perm cr.UDPPortRanges) :
    application.isUpToDate { cr with DomainNames := d, TCPPortRanges := t, UDPPortRanges := u }
        gobj = application.isUpToDate cr gobj ∧
    zpaclient.IsEqualStringArrayContent ["a", "b"] ["b", "a"] = true ∧
    zpaclient.IsEqualStringArrayContent ["a", "b"] ["a", "c"] = false ∧
    ((∃ x, ¬ (x ∈ cr.DomainNames ↔ x ∈ gobj.Payload.DomainNames)) →
      application.isUpToDate cr gobj = false) ∧
    ((∃ x, ¬ (x ∈ cr.TCPPortRanges ↔ x ∈ gobj.Payload.TCPPortRanges)) →
      application.isUpToDate cr gobj = false) ∧
    ((∃ x, ¬ (x ∈ cr.UDPPortRanges ↔ x ∈ gobj.Payload.UDPPortRanges)) →
      application.isUpToDate cr gobj = false) := by
  have hperm : ∀ (l l' s : List String), l.Perm l' →
      zpaclient.IsEqualStringArrayContent l s = zpaclient.IsEqualStringArrayContent l' s := by
    intro l l' s h
    rw [Bool.eq_iff_iff, IsEqualStringArrayContent_iff, IsEqualStringArrayContent_iff]
    exact forall_congr' fun x => iff_congr h.mem_iff Iff.rfl
  have hdiff : ∀ (l s : List String), (∃ x, ¬ (x ∈ l ↔ x ∈ s)) →
      zpaclient.IsEqualStringArrayContent l s = false := by
    intro l s ⟨x, hx⟩
    rw [← Bool.not_eq_true, IsEqualStringArrayContent_iff]
    exact fun h => hx (h x)
  refine ⟨?_, by decide, by decide, ?_, ?_, ?_⟩
  · rw [application_isUpToDate_eq, application_isUpToDate_eq]
    simp only [hperm d _ _ hd, hperm t _ _ ht, hperm u _ _ hu]
  · intro h
    rw [application_isUpToDate_eq, hdiff _ _ h]
    simp
  · intro h
    rw [application_isUpToDate_eq, hdiff _ _ h]
    simp
  · intro h
    rw [application_isUpToDate_eq, hdiff _ _ h]
    simp

/-- Witness of C4: the full sample spec with its domain names in the other order,
against the server that echoes the spec: both orders are up to date; and a spec
with domain names `["a.com", "c.com"]` against the server's `["a.com", "b.com"]` is
not. -/
theorem isUpToDate_list_order_independent_witness :
    (["b.com", "a.com"].Perm fullAppParams.DomainNames ∧
     application.isUpToDate
       { fullAppParams with DomainNames := ["b.com", "a.com"], TCPPortRanges := ["80", "80"],
                            UDPPortRanges := [] } movedAppResponse =
       application.isUpToDate fullAppParams movedAppResponse) ∧
    application.isUpToDate { fullAppParams with DomainNames := ["a.com", "c.com"] }
      movedAppResponse = false :=
  ⟨⟨by decide,
    (isUpToDate_list_order_independent fullAppParams movedAppResponse ["b.com", "a.com"]
      ["80", "80"] [] (by decide) (List.Perm.refl _) (List.Perm.refl _)).1⟩,
   (isUpToDate_list_order_independent { fullAppParams with DomainNames := ["a.com", "c.com"] }
      movedAppResponse ["a.com", "c.com"] ["80", "80"] [] (List.Perm.refl _) (List.Perm.refl _)
      (List.Perm.refl _)).2.2.2.1 ⟨"c.com", by decide⟩⟩

/-! ## Late initialization keeps what is set -/

/-- C5: for both resource kinds, `LateInitialize` never overwrites a field that is
set in the desired spec, whatever the observed object holds: each boolean field
that is non-nil and each string field that is non-empty before the call has the
same value after it, and the fields the late initializer does not handle (as well
as the name, the external name and the status of the resource) are unchanged. -/
theorem lateInitialize_keeps_set_fields (a : v1alpha1.ApplicationSegment)
    (aobj : application_controller.GetApplicationUsingGET1OK)
    (g : v1alpha1.SegmentGroup) (gobj : segment_group_controller.GetSegmentGroupUsingGET1OK) :
    ((a.Spec.ForProvider.Enabled ≠ none →
        (application.LateInitialize a aobj).Spec.ForProvider.Enabled =
          a.Spec.ForProvider.Enabled) ∧
     (a.Spec.ForProvider.PassiveHealthEnabled ≠ none →
        (application.LateInitialize a aobj).Spec.ForProvider.PassiveHealthEnabled =
          a.Spec.ForProvider.PassiveHealthEnabled) ∧
     (a.Spec.ForProvider.DoubleEncrypt ≠ none →
        (application.LateInitialize a aobj).Spec.ForProvider.DoubleEncrypt =
          a.Spec.ForProvider.DoubleEncrypt) ∧
     (a.Spec.ForProvider.IsCnameEnabled ≠ none →
        (application.LateInitialize a aobj).Spec.ForProvider.IsCnameEnabled =
          a.Spec.ForProvider.IsCnameEnabled) ∧
     (a.Spec.ForProvider.IPAnchored ≠ none →
        (application.LateInitialize a aobj).Spec.ForProvider.IPAnchored =
          a.Spec.ForProvider.IPAnchored) ∧
     (a.Spec.ForProvider.ConfigSpace ≠ "" →
        (application.LateInitialize a aobj).Spec.ForProvider.ConfigSpace =
          a.Spec.ForProvider.ConfigSpace) ∧
     (a.Spec.ForProvider.BypassType ≠ "" →
        (application.LateInitialize a aobj).Spec.ForProvider.BypassType =
          a.Spec.ForProvider.BypassType) ∧
     (a.Spec.ForProvider.HealthCheckType ≠ "" →
        (application.LateInitialize a aobj).Spec.ForProvider.HealthCheckType =
          a.Spec.ForProvider.HealthCheckType) ∧
     (a.Spec.ForProvider.IcmpAccessType ≠ "" →
        (application.LateInitialize a aobj).Spec.ForProvider.IcmpAccessType =
          a.Spec.ForProvider.IcmpAccessType) ∧
     (a.Spec.ForProvider.HealthReporting ≠ "" →
        (application.LateInitialize a aobj).Spec.ForProvider.HealthReporting =
          a.Spec.ForProvider.HealthReporting) ∧
     (application.LateInitialize a aobj).Spec.ForProvider.CustomerID =
        a.Spec.ForProvider.CustomerID ∧
     (application.LateInitialize a aobj).Spec.ForProvider.DefaultIdleTimeout =
        a.Spec.ForProvider.DefaultIdleTimeout ∧
     (application.LateInitialize a aobj).Spec.ForProvider.DefaultMaxAge =
        a.Spec.ForProvider.DefaultMaxAge ∧
     (application.LateInitialize a aobj).Spec.ForProvider.Description =
        a.Spec.ForProvider.Description ∧
     (application.LateInitialize a aobj).Spec.ForProvider.DomainNames =
        a.Spec.ForProvider.DomainNames ∧
     (application.LateInitialize a aobj).Spec.ForProvider.SegmentGroupID =
        a.Spec.ForProvider.SegmentGroupID ∧
     (application.LateInitialize a aobj).Spec.ForProvider.TCPPortRanges =
        a.Spec.ForProvider.TCPPortRanges ∧
     (application.LateInitialize a aobj).Spec.ForProvider.UDPPortRanges =
        a.Spec.ForProvider.UDPPortRanges ∧
     (application.LateInitialize a aobj).Name = a.Name ∧
     (application.LateInitialize a aobj).ExternalName = a.ExternalName ∧
     (application.LateInitialize a aobj).Status = a.Status) ∧
    ((g.Spec.ForProvider.ConfigSpace ≠ "" →
        (segment.LateInitialize g gobj).Spec.ForProvider.ConfigSpace =
          g.Spec.ForProvider.ConfigSpace) ∧
     (g.Spec.ForProvider.TCPKeepAliveEnabled ≠ "" →
        (segment.LateInitialize g gobj).Spec.ForProvider.TCPKeepAliveEnabled =
          g.Spec.ForProvider.TCPKeepAliveEnabled) ∧
     (segment.LateInitialize g gobj).Spec.ForProvider.CustomerID =
        g.Spec.ForProvider.CustomerID ∧
     (segment.LateInitialize g gobj).Spec.ForProvider.Description =
        g.Spec.ForProvider.Description ∧
     (segment.LateInitialize g gobj).Spec.ForProvider.Enabled = g.Spec.ForProvider.Enabled ∧
     (segment.LateInitialize g gobj).Name = g.Name ∧
     (segment.LateInitialize g gobj).ExternalName = g.ExternalName ∧
     (segment.LateInitialize g gobj).Status = g.Status) := by
  constructor
  · rw [application_LateInitialize_eq]
    refine ⟨?_, ?_, ?_, ?_, ?_, ?_, ?_, ?_, ?_, ?_, rfl, rfl, rfl, rfl, rfl, rfl, rfl, rfl, rfl,
      rfl, rfl⟩ <;> intro h <;> simp [h]
  · rw [segment_LateInitialize_eq]
    refine ⟨?_, ?_, rfl, rfl, rfl, rfl, rfl, rfl⟩ <;> intro h <;> simp [h]

/-- Witness of C5: the spec says `Enabled = false` and the server reports
`Enabled = true`; after late initialization the spec still says `Enabled = false`.
For the segment group, a spec with `ConfigSpace = "SIEM"` keeps it against the
server's empty value. -/
theorem lateInitialize_keeps_set_fields_witness :
    (enabledAppResponse "app-123").Payload.Enabled = true ∧
    (application.LateInitialize
        (sampleApp "app-123" { sampleAppParams with Enabled := some false })
        (enabledAppResponse "app-123")).Spec.ForProvider.Enabled = some false ∧
    (segment.LateInitialize
        (sampleGroup "sg-1" { sampleGroupParams with ConfigSpace := "SIEM" })
        (enabledGroupResponse "sg-1")).Spec.ForProvider.ConfigSpace = "SIEM" :=
  ⟨rfl,
   (lateInitialize_keeps_set_fields
      (sampleApp "app-123" { sampleAppParams with Enabled := some false })
      (enabledAppResponse "app-123")
      (sampleGroup "sg-1" { sampleGroupParams with ConfigSpace := "SIEM" })
      (enabledGroupResponse "sg-1")).1.1 (by simp [sampleApp]),
   (lateInitialize_keeps_set_fields
      (sampleApp "app-123" { sampleAppParams with Enabled := some false })
      (enabledAppResponse "app-123")
      (sampleGroup "sg-1" { sampleGroupParams with ConfigSpace := "SIEM" })
      (enabledGroupResponse "sg-1")).2.1 (by simp [sampleGroup])⟩

/-! ## Late initialization is idempotent -/

/-- C6: for both resource kinds, `LateInitialize` is idempotent: applying it with
the same observed object twice in succession yields the resource (and so the spec)
obtained by applying it once. -/
theorem lateInitialize_idempotent (a : v1alpha1.ApplicationSegment)
    (aobj : application_controller.GetApplicationUsingGET1OK)
    (g : v1alpha1.SegmentGroup) (gobj : segment_group_controller.GetSegmentGroupUsingGET1OK) :
    application.LateInitialize (application.LateInitialize a aobj) aobj =
        application.LateInitialize a aobj ∧
    (application.LateInitialize (application.LateInitialize a aobj) aobj).Spec.ForProvider =
        (application.LateInitialize a aobj).Spec.ForProvider ∧
    segment.LateInitialize (segment.LateInitialize g gobj) gobj = segment.LateInitialize g gobj ∧
    (segment.LateInitialize (segment.LateInitialize g gobj) gobj).Spec.ForProvider =
        (segment.LateInitialize g gobj).Spec.ForProvider := by
  refine ⟨application_LateInitialize_twice a aobj, ?_, segment_LateInitialize_twice g gobj, ?_⟩
  · rw [application_LateInitialize_twice]
  · rw [segment_LateInitialize_twice]

/-! ## Late initialization is reported once -/

/-- C7: for every application segment with a non-empty external name whose spec has
`Enabled` unset, if the remote read succeeds and reports `Enabled = true`, then
`Observe` succeeds, the resource after it has `spec.Enabled` a pointer to true, and
that `Observe` reports `ResourceLateInitialized = true`; an immediately following
`Observe` of the resulting resource against the same client (hence the same server
response) succeeds, reports `ResourceLateInitialized = false` and leaves the spec as
it is. -/
theorem observe_lateInitialized_once (IsNotFound : Error → Bool) (e : application.external)
    (cr : v1alpha1.ApplicationSegment) (resp : application_controller.GetApplicationUsingGET1OK)
    (hname : cr.ExternalName ≠ "") (hunset : cr.Spec.ForProvider.Enabled = none)
    (hread : e.client.ApplicationController.GetApplicationUsingGET1
      { ApplicationID := cr.ExternalName, CustomerID := cr.Spec.ForProvider.CustomerID } = .ok resp)
    (htrue : resp.Payload.Enabled = true) :
    ∃ cr1 cr2 : v1alpha1.ApplicationSegment,
      (application.Observe IsNotFound e (.ApplicationSegment cr)).mg = .ApplicationSegment cr1 ∧
      (application.Observe IsNotFound e (.ApplicationSegment cr)).err = none ∧
      (application.Observe IsNotFound e (.ApplicationSegment cr)).value.ResourceExists = true ∧
      cr1.Spec.ForProvider.Enabled = some true ∧
      (application.Observe IsNotFound e
        (.ApplicationSegment cr)).value.ResourceLateInitialized = true ∧
      (application.Observe IsNotFound e (.ApplicationSegment cr1)).mg = .ApplicationSegment cr2 ∧
      (application.Observe IsNotFound e (.ApplicationSegment cr1)).err = none ∧
      (application.Observe IsNotFound e (.ApplicationSegment cr1)).value.ResourceExists = true ∧
      (application.Observe IsNotFound e
        (.ApplicationSegment cr1)).value.ResourceLateInitialized = false ∧
      cr2.Spec.ForProvider = cr1.Spec.ForProvider := by
  have h1 := application_Observe_ok IsNotFound e cr resp hname hread
  have hen : (application.LateInitialize
      { cr with Status.AtProvider := application.generateObservation resp }
      resp).Spec.ForProvider.Enabled = some true := by
    rw [application_LateInitialize_eq]
    simp [hunset, htrue, zpaclient.Bool]
  have hcust : (application.LateInitialize
      { cr with Status.AtProvider := application.generateObservation resp }
      resp).Spec.ForProvider.CustomerID = cr.Spec.ForProvider.CustomerID := by
    rw [application_LateInitialize_eq]
  have hext : (application.LateInitialize
      { cr with Status.AtProvider := application.generateObservation resp }
      resp).ExternalName = cr.ExternalName := by
    rw [application_LateInitialize_eq]
  -- a second late initialization changes nothing in the spec
  have htwice : ∀ cr1 : v1alpha1.ApplicationSegment,
      cr1.Spec = (application.LateInitialize
        { cr with Status.AtProvider := application.generateObservation resp } resp).Spec →
      (application.LateInitialize cr1 resp).Spec = (application.LateInitialize
        { cr with Status.AtProvider := application.generateObservation resp } resp).Spec :=
    fun cr1 h => (application_LateInitialize_spec_congr cr1 _ resp h).trans
      (congrArg (fun x => x.Spec) (application_LateInitialize_twice _ resp))
  generalize application.LateInitialize
    { cr with Status.AtProvider := application.generateObservation resp } resp = X
    at h1 hen hcust hext htwice
  have hne : X.Spec.ForProvider ≠ cr.Spec.ForProvider := by
    intro h
    rw [h, hunset] at hen
    exact absurd hen (by simp)
  -- the second `Observe` reads with the same external name and customer
  have h2 := application_Observe_ok IsNotFound e
    { X with Status.Conditions := SetConditions X.Status.Conditions v1.Available } resp
    (by simpa [hext] using hname) (by simpa [hext, hcust] using hread)
  have h3 := htwice
    { X with Status := { AtProvider := application.generateObservation resp,
                         Conditions := SetConditions X.Status.Conditions v1.Available } } rfl
  generalize application.LateInitialize
    { X with Status := { AtProvider := application.generateObservation resp,
                         Conditions := SetConditions X.Status.Conditions v1.Available } }
    resp = Y at h2 h3
  refine ⟨_, _, congrArg Outcome.mg h1, ?_, ?_, hen, ?_, congrArg Outcome.mg h2, ?_, ?_, ?_, ?_⟩
  · rw [h1]
  · rw [h1]
  · rw [h1]
    simpa using hne
  · rw [h2]
  · rw [h2]
  · rw [h2]
    simpa using congrArg (fun x => x.ForProvider) h3
  · exact congrArg (fun x => x.ForProvider) h3

/-- Witness of C7: the sample application segment with external name `"app-123"`
and `Enabled` unset, against a server that reports `Enabled = true`. -/
theorem observe_lateInitialized_once_witness :
    ((sampleApp "app-123" sampleAppParams).ExternalName ≠ "" ∧
     (sampleApp "app-123" sampleAppParams).Spec.ForProvider.Enabled = none ∧
     (enabledAppResponse "app-123").Payload.Enabled = true) ∧
    (application.Observe (fun _ => false)
      ⟨sampleClient (enabledAppResponse "app-123") (sampleGroupResponse "x") "app-123"⟩
      (.ApplicationSegment (sampleApp "app-123" sampleAppParams))).value.ResourceLateInitialized =
        true :=
  ⟨⟨by decide, rfl, rfl⟩,
   match observe_lateInitialized_once (fun _ => false)
      ⟨sampleClient (enabledAppResponse "app-123") (sampleGroupResponse "x") "app-123"⟩
      (sampleApp "app-123" sampleAppParams) (enabledAppResponse "app-123")
      (by decide) rfl rfl rfl with
   | ⟨_, _, _, _, _, _, h, _⟩ => h⟩

/-! ## Late initialization of a segment group -/

/-- C8, evaluated on the code: the sample segment group has `Enabled` unset and the
server reports `Enabled = true`, yet after `LateInitialize`, and after the
successful `Observe` that runs it, `spec.Enabled` is still unset, not a pointer to
true; the application segment's `LateInitialize` on the like input does set
`spec.Enabled` to a pointer to true. -/
theorem segment_lateInitialize_leaves_enabled_unset :
    ((sampleGroup "sg-1" sampleGroupParams).Spec.ForProvider.Enabled = none ∧
     (enabledGroupResponse "sg-1").Payload.Enabled = true ∧
     (segment.LateInitialize (sampleGroup "sg-1" sampleGroupParams)
       (enabledGroupResponse "sg-1")).Spec.ForProvider.Enabled = none ∧
     (segment.Observe (fun _ => false)
       ⟨sampleClient (sampleAppResponse "x") (enabledGroupResponse "sg-1") "sg-1"⟩
       (.SegmentGroup (sampleGroup "sg-1" sampleGroupParams))).err = none ∧
     (segment.Observe (fun _ => false)
       ⟨sampleClient (sampleAppResponse "x") (enabledGroupResponse "sg-1") "sg-1"⟩
       (.SegmentGroup (sampleGroup "sg-1" sampleGroupParams))).mg =
         .SegmentGroup
           { sampleGroup "sg-1" sampleGroupParams with
             Status := { AtProvider := segment.generateObservation (enabledGroupResponse "sg-1"),
                         Conditions := [v1.Available] } }) ∧
    ((sampleApp "app-123" sampleAppParams).Spec.ForProvider.Enabled = none ∧
     (enabledAppResponse "app-123").Payload.Enabled = true ∧
     (application.LateInitialize (sampleApp "app-123" sampleAppParams)
       (enabledAppResponse "app-123")).Spec.ForProvider.Enabled = some true) := by
  refine ⟨⟨rfl, rfl, rfl, rfl, ?_⟩, rfl, rfl, ?_⟩
  · decide
  · rw [application_LateInitialize_eq]
    rfl

/-! ## Create and the external name -/

/-- C9: for both resource kinds, `Create` assigns the external name on success and
never on failure. When the remote create call answers with a response carrying
identifier `resp.Payload.ID`, the resource after `Create` is the resource before
with that identifier as external name, `ExternalNameAssigned = true` and the error
is nil; when the remote call fails with `err`, `Create` returns the non-nil error
`err` wrapped under the create-failed message and the resource (its external name
included) is as before; a resource of another kind gets the non-nil wrong-kind
error, no remote call, and is as before. -/
theorem create_assigns_external_name (ea : application.external) (es : segment.external)
    (a : v1alpha1.ApplicationSegment) (g : v1alpha1.SegmentGroup) (kind : String) :
    (match ea.client.ApplicationController.AddApplicationUsingPOST1
        { CustomerID := a.Spec.ForProvider.CustomerID, Application := application.payload a } with
      | .ok resp =>
        (application.Create ea (.ApplicationSegment a)).mg =
            .ApplicationSegment { a with ExternalName := resp.Payload.ID } ∧
          (application.Create ea (.ApplicationSegment a)).value.ExternalNameAssigned = true ∧
          (application.Create ea (.ApplicationSegment a)).err = none
      | .error err =>
        (application.Create ea (.ApplicationSegment a)).err =
            some (Error.Wrap err application.errCreateFailed) ∧
          (application.Create ea (.ApplicationSegment a)).value.ExternalNameAssigned = false ∧
          (application.Create ea (.ApplicationSegment a)).mg = .ApplicationSegment a) ∧
    ((application.Create ea (.SegmentGroup g)).err =
        some (Error.New application.errNotApplicationSegment) ∧
      (application.Create ea (.SegmentGroup g)).mg = .SegmentGroup g ∧
      (application.Create ea (.SegmentGroup g)).calls = [] ∧
      (application.Create ea (.Other kind)).err =
        some (Error.New application.errNotApplicationSegment) ∧
      (application.Create ea (.Other kind)).mg = .Other kind ∧
      (application.Create ea (.Other kind)).calls = []) ∧
    (match es.client.SegmentGroupController.AddSegmentGroupUsingPOST1
        { CustomerID := g.Spec.ForProvider.CustomerID, SegmentGroup := segment.createPayload g } with
      | .ok resp =>
        (segment.Create es (.SegmentGroup g)).mg =
            .SegmentGroup { g with ExternalName := resp.Payload.ID } ∧
          (segment.Create es (.SegmentGroup g)).value.ExternalNameAssigned = true ∧
          (segment.Create es (.SegmentGroup g)).err = none
      | .error err =>
        (segment.Create es (.SegmentGroup g)).err =
            some (Error.Wrap err segment.errCreateFailed) ∧
          (segment.Create es (.SegmentGroup g)).value.ExternalNameAssigned = false ∧
          (segment.Create es (.SegmentGroup g)).mg = .SegmentGroup g) ∧
    ((segment.Create es (.ApplicationSegment a)).err =
        some (Error.New segment.errNotSegmentGroup) ∧
      (segment.Create es (.ApplicationSegment a)).mg = .ApplicationSegment a ∧
      (segment.Create es (.ApplicationSegment a)).calls = [] ∧
      (segment.Create es (.Other kind)).err = some (Error.New segment.errNotSegmentGroup) ∧
      (segment.Create es (.Other kind)).mg = .Other kind ∧
      (segment.Create es (.Other kind)).calls = []) := by
  refine ⟨?_, ?_, ?_, ?_⟩
  · cases h : ea.client.ApplicationController.AddApplicationUsingPOST1
        { CustomerID := a.Spec.ForProvider.CustomerID, Application := application.payload a } <;>
      simp [application.Create, h, errors.Wrap, zpaclient.String, ExternalCreation.zero]
  · simp [application.Create, errors.New]
  · cases h : es.client.SegmentGroupController.AddSegmentGroupUsingPOST1
        { CustomerID := g.Spec.ForProvider.CustomerID, SegmentGroup := segment.createPayload g } <;>
      simp [segment.Create, h, errors.Wrap, zpaclient.String, ExternalCreation.zero]
  · simp [segment.Create, errors.New]

/-! ## Delete without an external name -/

/-- C10: for both resource kinds, `Delete` on a resource of the expected kind whose
external name is the empty string returns a non-nil error (created with
`errors.New`, not a wrapped remote error), issues no call on the remote client and
leaves the resource as it was. -/
theorem delete_without_external_name (ea : application.external) (es : segment.external)
    (a : v1alpha1.ApplicationSegment) (g : v1alpha1.SegmentGroup)
    (ha : a.ExternalName = "") (hg : g.ExternalName = "") :
    ((application.Delete ea (.ApplicationSegment a)).err ≠ none ∧
     (application.Delete ea (.ApplicationSegment a)).err =
        some (Error.New application.errNotApplicationSegment) ∧
     (application.Delete ea (.ApplicationSegment a)).calls = [] ∧
     (application.Delete ea (.ApplicationSegment a)).mg = .ApplicationSegment a) ∧
    ((segment.Delete es (.SegmentGroup g)).err ≠ none ∧
     (segment.Delete es (.SegmentGroup g)).err = some (Error.New segment.errNotSegmentGroup) ∧
     (segment.Delete es (.SegmentGroup g)).calls = [] ∧
     (segment.Delete es (.SegmentGroup g)).mg = .SegmentGroup g) := by
  constructor
  · simp [application.Delete, ha, errors.New]
  · simp [segment.Delete, hg, errors.New]

/-- Witness of C10: the sample resources without an external name, against a client
that would accept every delete. -/
theorem delete_without_external_name_witness :
    ((sampleApp "" sampleAppParams).ExternalName = "" ∧
     (sampleGroup "" sampleGroupParams).ExternalName = "") ∧
    ((application.Delete ⟨echoClient⟩
        (.ApplicationSegment (sampleApp "" sampleAppParams))).err ≠ none ∧
     (segment.Delete ⟨echoClient⟩
        (.SegmentGroup (sampleGroup "" sampleGroupParams))).calls = []) :=
  ⟨⟨rfl, rfl⟩,
   (delete_without_external_name ⟨echoClient⟩ ⟨echoClient⟩
      (sampleApp "" sampleAppParams) (sampleGroup "" sampleGroupParams) rfl rfl).1.1,
   (delete_without_external_name ⟨echoClient⟩ ⟨echoClient⟩
      (sampleApp "" sampleAppParams) (sampleGroup "" sampleGroupParams) rfl rfl).2.2.2.1⟩

/-! ## Not-found is suppressed in Observe, not in Delete -/

/-- C11: for both resource kinds and every resource with a non-empty external name,
when the remote read fails with `err`, `Observe` returns a nil error if and only if
`IsNotFound err` holds, returns `err` wrapped under the describe-failed message
otherwise, and in both cases reports `ResourceExists = false` and leaves the
resource (its spec and status included) as it was; when the remote delete fails
with `err`, `Delete` returns the non-nil error `err` wrapped under the
delete-failed message, whether or not `IsNotFound err` holds. -/
theorem notFound_suppressed_in_observe_only (IsNotFound : Error → Bool)
    (ea : application.external) (es : segment.external)
    (a : v1alpha1.ApplicationSegment) (g : v1alpha1.SegmentGroup) (err : Error)
    (ha : a.ExternalName ≠ "") (hg : g.ExternalName ≠ "") :
    (ea.client.ApplicationController.GetApplicationUsingGET1
        { ApplicationID := a.ExternalName, CustomerID := a.Spec.ForProvider.CustomerID } =
          .error err →
      ((application.Observe IsNotFound ea (.ApplicationSegment a)).err = none ↔
          IsNotFound err = true) ∧
      (IsNotFound err = false →
        (application.Observe IsNotFound ea (.ApplicationSegment a)).err =
          some (Error.Wrap err application.errDescribeFailed)) ∧
      (application.Observe IsNotFound ea (.ApplicationSegment a)).value.ResourceExists = false ∧
      (application.Observe IsNotFound ea (.ApplicationSegment a)).mg = .ApplicationSegment a) ∧
    (ea.client.ApplicationController.DeleteApplicationUsingDELETE1
        { ApplicationID := a.ExternalName, CustomerID := a.Spec.ForProvider.CustomerID,
          ForceDelete := some true } = some err →
      (application.Delete ea (.ApplicationSegment a)).err =
          some (Error.Wrap err application.errDeleteFailed) ∧
      (application.Delete ea (.ApplicationSegment a)).err ≠ none) ∧
    (es.client.SegmentGroupController.GetSegmentGroupUsingGET1
        { SegmentGroupID := g.ExternalName, CustomerID := g.Spec.ForProvider.CustomerID } =
          .error err →
      ((segment.Observe IsNotFound es (.SegmentGroup g)).err = none ↔ IsNotFound err = true) ∧
      (IsNotFound err = false →
        (segment.Observe IsNotFound es (.SegmentGroup g)).err =
          some (Error.Wrap err segment.errDescribeFailed)) ∧
      (segment.Observe IsNotFound es (.SegmentGroup g)).value.ResourceExists = false ∧
      (segment.Observe IsNotFound es (.SegmentGroup g)).mg = .SegmentGroup g) ∧
    (es.client.SegmentGroupController.DeleteSegmentGroupUsingDELETE1
        { SegmentGroupID := g.ExternalName, CustomerID := g.Spec.ForProvider.CustomerID } =
          some err →
      (segment.Delete es (.SegmentGroup g)).err = some (Error.Wrap err segment.errDeleteFailed) ∧
      (segment.Delete es (.SegmentGroup g)).err ≠ none) := by
  refine ⟨?_, ?_, ?_, ?_⟩
  · intro h
    have hobs : application.Observe IsNotFound ea (.ApplicationSegment a) =
        { value := { ResourceExists := false, ResourceUpToDate := false,
                     ResourceLateInitialized := false },
          err := errors.Wrap (resource.Ignore IsNotFound (some err))
            application.errDescribeFailed,
          mg := .ApplicationSegment a,
          calls := [RemoteCall.GetApplicationUsingGET1
            { ApplicationID := a.ExternalName,
              CustomerID := a.Spec.ForProvider.CustomerID }] } := by
      unfold application.Observe
      dsimp only
      rw [if_neg ha, h]
    rw [hobs]
    cases hnf : IsNotFound err <;> simp [errors.Wrap, resource.Ignore, hnf]
  · intro h
    have hdel : application.Delete ea (.ApplicationSegment a) =
        { value := (), err := errors.Wrap (some err) application.errDeleteFailed,
          mg := .ApplicationSegment a,
          calls := [RemoteCall.DeleteApplicationUsingDELETE1
            { ApplicationID := a.ExternalName, CustomerID := a.Spec.ForProvider.CustomerID,
              ForceDelete := some true }] } := by
      unfold application.Delete
      dsimp only
      rw [if_neg ha, h]
    rw [hdel]
    simp [errors.Wrap]
  · intro h
    have hobs : segment.Observe IsNotFound es (.SegmentGroup g) =
        { value := { ResourceExists := false, ResourceUpToDate := false,
                     ResourceLateInitialized := false },
          err := errors.Wrap (resource.Ignore IsNotFound (some err)) segment.errDescribeFailed,
          mg := .SegmentGroup g,
          calls := [RemoteCall.GetSegmentGroupUsingGET1
            { SegmentGroupID := g.ExternalName,
              CustomerID := g.Spec.ForProvider.CustomerID }] } := by
      unfold segment.Observe
      dsimp only
      rw [if_neg hg, h]
    rw [hobs]
    cases hnf : IsNotFound err <;> simp [errors.Wrap, resource.Ignore, hnf]
  · intro h
    have hdel : segment.Delete es (.SegmentGroup g) =
        { value := (), err := errors.Wrap (some err) segment.errDeleteFailed,
          mg := .SegmentGroup g,
          calls := [RemoteCall.DeleteSegmentGroupUsingDELETE1
            { SegmentGroupID := g.ExternalName,
              CustomerID := g.Spec.ForProvider.CustomerID }] } := by
      unfold segment.Delete
      dsimp only
      rw [if_neg hg, h]
    rw [hdel]
    simp [errors.Wrap]

/-- Witness of C11: the sample resources with an external name against a client
every call of which fails with a 404, under the predicate that takes a 404 for
not-found: `Observe` returns a nil error, `Delete` the wrapped 404; and against a
client that fails with a 500, `Observe` returns the wrapped 500. -/
theorem notFound_suppressed_in_observe_only_witness :
    ((sampleApp "app-123" sampleAppParams).ExternalName ≠ "" ∧
     (sampleGroup "sg-1" sampleGroupParams).ExternalName ≠ "" ∧
     sampleIsNotFound (Error.API 404 "gone") = true ∧
     sampleIsNotFound (Error.API 500 "down") = false) ∧
    (application.Observe sampleIsNotFound ⟨failingClient (Error.API 404 "gone")⟩
      (.ApplicationSegment (sampleApp "app-123" sampleAppParams))).err = none ∧
    (application.Delete ⟨failingClient (Error.API 404 "gone")⟩
      (.ApplicationSegment (sampleApp "app-123" sampleAppParams))).err =
        some (Error.Wrap (Error.API 404 "gone") application.errDeleteFailed) ∧
    (segment.Observe sampleIsNotFound ⟨failingClient (Error.API 500 "down")⟩
      (.SegmentGroup (sampleGroup "sg-1" sampleGroupParams))).err =
        some (Error.Wrap (Error.API 500 "down") segment.errDescribeFailed) :=
  ⟨⟨by decide, by decide, rfl, rfl⟩,
   ((notFound_suppressed_in_observe_only sampleIsNotFound
      ⟨failingClient (Error.API 404 "gone")⟩ ⟨failingClient (Error.API 404 "gone")⟩
      (sampleApp "app-123" sampleAppParams) (sampleGroup "sg-1" sampleGroupParams)
      (Error.API 404 "gone") (by decide) (by decide)).1 rfl).1.2 rfl,
   ((notFound_suppressed_in_observe_only sampleIsNotFound
      ⟨failingClient (Error.API 404 "gone")⟩ ⟨failingClient (Error.API 404 "gone")⟩
      (sampleApp "app-123" sampleAppParams) (sampleGroup "sg-1" sampleGroupParams)
      (Error.API 404 "gone") (by decide) (by decide)).2.1 rfl).1,
   ((notFound_suppressed_in_observe_only sampleIsNotFound
      ⟨failingClient (Error.API 500 "down")⟩ ⟨failingClient (Error.API 500 "down")⟩
      (sampleApp "app-123" sampleAppParams) (sampleGroup "sg-1" sampleGroupParams)
      (Error.API 500 "down") (by decide) (by decide)).2.2.1 rfl).2.1 rfl⟩

/-! ## End to end: observe, create, observe -/

/-- C12: end to end for an application segment. For every resource without an
external name, `Observe` reports not-exists without a remote call; when the remote
create call then succeeds with a non-empty identifier `i` (as `"app-123"`), `Create`
leaves the resource with external name `i`; and when the read of `i` answers with a
response that carries exactly the field values of the payload `Create` built from
the spec (absent booleans as `false`, absent strings as empty), next to whatever
identifier and timestamps the server assigns, the subsequent `Observe` returns
`ResourceExists = true` and `ResourceUpToDate = true` with a nil error. -/
theorem observe_create_observe (IsNotFound : Error → Bool) (e : application.external)
    (cr : v1alpha1.ApplicationSegment)
    (created : application_controller.AddApplicationUsingPOST1Created)
    (read : application_controller.GetApplicationUsingGET1OK) (i ct mb mt : String)
    (hnone : cr.ExternalName = "")
    (hcreate : e.client.ApplicationController.AddApplicationUsingPOST1
      { CustomerID := cr.Spec.ForProvider.CustomerID, Application := application.payload cr } =
        .ok created)
    (hid : created.Payload.ID = i) (hi : i ≠ "")
    (hread : e.client.ApplicationController.GetApplicationUsingGET1
      { ApplicationID := i, CustomerID := cr.Spec.ForProvider.CustomerID } = .ok read)
    (hecho : read.Payload = { application.payload cr with
      ID := i, CreationTime := ct, ModifiedBy := mb, ModifiedTime := mt }) :
    ((application.Observe IsNotFound e (.ApplicationSegment cr)).value.ResourceExists = false ∧
     (application.Observe IsNotFound e (.ApplicationSegment cr)).err = none ∧
     (application.Observe IsNotFound e (.ApplicationSegment cr)).calls = []) ∧
    ((application.Create e (.ApplicationSegment cr)).mg =
        .ApplicationSegment { cr with ExternalName := i } ∧
     (application.Create e (.ApplicationSegment cr)).value.ExternalNameAssigned = true ∧
     (application.Create e (.ApplicationSegment cr)).err = none) ∧
    ((application.Observe IsNotFound e
        (.ApplicationSegment { cr with ExternalName := i })).value.ResourceExists = true ∧
     (application.Observe IsNotFound e
        (.ApplicationSegment { cr with ExternalName := i })).value.ResourceUpToDate = true ∧
     (application.Observe IsNotFound e
        (.ApplicationSegment { cr with ExternalName := i })).err = none) := by
  refine ⟨?_, ?_, ?_⟩
  · simp [application.Observe, hnone]
  · simp [application.Create, hcreate, hid, zpaclient.String]
  · have h2 := application_Observe_ok IsNotFound e { cr with ExternalName := i } read hi hread
    have hup := application_isUpToDate_of_echo
      { cr with ExternalName := i,
                Status.AtProvider := application.generateObservation read }
      read i ct mb mt hecho
    generalize application.LateInitialize
      { cr with ExternalName := i,
                Status.AtProvider := application.generateObservation read } read = X
      at h2 hup
    rw [h2]
    exact ⟨rfl, hup, rfl⟩

/-- Witness of C12: the spec `DomainNames = ["a.com"]`, `CustomerID = "c1"` with
every optional field unset and no external name, against a server that creates
under `"app-123"` and answers the read with the payload it was sent. -/
theorem observe_create_observe_witness :
    ((sampleApp "" sampleAppParams).ExternalName = "" ∧
     (sampleApp "" sampleAppParams).Spec.ForProvider.DomainNames = ["a.com"] ∧
     (sampleApp "" sampleAppParams).Spec.ForProvider.CustomerID = "c1") ∧
    (application.Create
      ⟨sampleClient (sampleAppResponse "app-123") (sampleGroupResponse "x") "app-123"⟩
      (.ApplicationSegment (sampleApp "" sampleAppParams))).mg =
        .ApplicationSegment (sampleApp "app-123" sampleAppParams) ∧
    (application.Observe (fun _ => false)
      ⟨sampleClient (sampleAppResponse "app-123") (sampleGroupResponse "x") "app-123"⟩
      (.ApplicationSegment (sampleApp "app-123" sampleAppParams))).value.ResourceUpToDate =
        true :=
  ⟨⟨rfl, rfl, rfl⟩,
   (observe_create_observe (fun _ => false)
      ⟨sampleClient (sampleAppResponse "app-123") (sampleGroupResponse "x") "app-123"⟩
      (sampleApp "" sampleAppParams)
      { Payload := { application.payload (sampleApp "" sampleAppParams) with ID := "app-123" } }
      (sampleAppResponse "app-123") "app-123" "" "" "" rfl rfl rfl (by decide) rfl rfl).2.1.1,
   (observe_create_observe (fun _ => false)
      ⟨sampleClient (sampleAppResponse "app-123") (sampleGroupResponse "x") "app-123"⟩
      (sampleApp "" sampleAppParams)
      { Payload := { application.payload (sampleApp "" sampleAppParams) with ID := "app-123" } }
      (sampleAppResponse "app-123") "app-123" "" "" "" rfl rfl rfl (by decide) rfl rfl).2.2.2.1⟩
